import Mathlib

/-!
Weapon enchantment spells (crawl-ref/source/spl-wpnench.cc)

A shallow embedding of the weapon-branding spells of spl-wpnench.cc and proofs of
properties of their state machine: application, extension, mutual exclusion and
reversion of the temporary venom and pain brands.

Conventions of the embedding.

* The global `you` is passed explicitly as a record `player`; every operation returns
  the new record.
* An `item_def&` is an index into the item store `player.inv`; `you.weapon()` is the
  optional index `player.equip_weapon` (`none` is the null pointer).
* C++ `int` counters are mathematical integers (`Int`); a counter is "nonzero" exactly
  when the C++ condition `if (you.duration[d])` is taken.
* Calls into collaborators whose effect lies outside this file (messages, prompts, dice,
  miscasts, mana recalculation, noise, unequipping) are recorded in ghost fields of
  `player`, so that "no roll was consumed" or "no miscast happened" is a statement about
  the record.
* The answer of `yesno` and the raw random draws are inputs of the cast operations.
* A failed `ASSERT` and a dereference of a null `you.weapon()` have no successor state:
  the operation returns `none`.
-/

namespace SplWpnench

/-! ## Data model -/

/-- Brand tags of a weapon (enum `brand_type`); the tags this file names are listed, every
other tag is `SPWPN_OTHER n`. -/
inductive brand_type where
  | SPWPN_NORMAL
  | SPWPN_FLAMING
  | SPWPN_VENOM
  | SPWPN_PAIN
  | SPWPN_DISTORTION
  | SPWPN_ANTIMAGIC
  | SPWPN_OTHER (n : Nat)
  deriving DecidableEq, Repr

/-- Item classes (enum `object_class_type`): weapons and everything else. -/
inductive object_class_type where
  | OBJ_WEAPONS
  | OBJ_OTHER (n : Nat)
  deriving DecidableEq, Repr

/-- Weapon sub-types (enum `weapon_type`): the blowgun and everything else. -/
inductive weapon_type where
  | WPN_BLOWGUN
  | WPN_OTHER (n : Nat)
  deriving DecidableEq, Repr

/-- The duration slots this file reads or writes (enum `duration_type`). -/
inductive duration_type where
  | DUR_ELEMENTAL_WEAPON
  | DUR_EXCRUCIATING_WOUNDS
  | DUR_POISON_WEAPON
  | DUR_SPWPN_PROTECTION
  | DUR_CONFUSING_TOUCH
  | DUR_POISON_GLAND
  deriving DecidableEq, Repr

/-- Player forms (enum `transformation`): the lich form and everything else. -/
inductive transformation where
  | none
  | lich
  | other (n : Nat)
  deriving DecidableEq, Repr

/-- Result of a cast (enum `spret`). -/
inductive spret where
  | abort
  | fail
  | success
  deriving DecidableEq, Repr

/-- Equipment slots (enum `equipment_type`): the weapon slot and everything else. -/
inductive equipment_type where
  | EQ_WEAPON
  | EQ_OTHER (n : Nat)
  deriving DecidableEq, Repr

/-- Spell schools passed to `MiscastEffect` (enum `spschool`). -/
inductive spschool where
  | translocation
  | other (n : Nat)
  deriving DecidableEq, Repr

/-- The fields of `item_def` the spells read or write. The flags `artefact`, `ranged` and
`holy` hold the answers of `is_artefact`, `is_range_weapon` and `is_holy_item` for the
item. -/
structure item_def where
  base_type : object_class_type
  sub_type : weapon_type
  brand : brand_type
  artefact : Bool
  ranged : Bool
  holy : Bool
  deriving DecidableEq, Repr

/-- One recorded call of `MiscastEffect`: school, the two severity arguments, cause. -/
structure miscast_call where
  school : spschool
  level : Int
  severity : Int
  cause : String
  deriving DecidableEq, Repr

/-- The part of the global `you` (and of its surroundings) the spells touch.

`duration` is `you.duration[]`, `decay` the parameter registered with each duration,
`props` the entry `you.props[ORIGINAL_BRAND_KEY]` (`none`: key absent), `inv` the item
store, `equip_weapon` the result of `you.weapon()`, `form` is `you.form`,
`safe_distortion` the answer of `have_passive(passive_t::safe_distortion)`, `silenced` the
answer of `silenced(you.pos())`. The fields after `redraw_armour_class` are ghost records
of collaborator calls. -/
structure player where
  duration : duration_type → Int
  decay : duration_type → Int
  props : Option brand_type
  inv : Nat → item_def
  equip_weapon : Option Nat
  form : transformation
  safe_distortion : Bool
  silenced : Bool
  wield_change : Bool
  redraw_armour_class : Bool
  messages : List String
  prompts : Nat
  dice_rolls : Nat
  miscasts : List miscast_call
  calc_mp_calls : Nat
  noise_events : Nat
  unequips : Nat

/-! ## Collaborators -/

/-- Message output (`mpr`, `mprf`, `canned_msg`): the text is appended to the log; the
weapon name an `mprf` format interpolates is left as `%s`. -/
def mpr (you : player) (text : String) : player :=
  { you with messages := you.messages ++ [text] }

/-- Modelled from the spec: `get_weapon_brand` (item-prop.cc) is missing from the sources;
the spec gives a weapon one `current_brand` tag, which this reads. -/
def get_weapon_brand (item : item_def) : brand_type :=
  item.brand

/-- Modelled from the spec: `set_item_ego_type` (item-prop.cc) is missing from the sources;
the spec has it overwrite the brand field of a brandable item with the given tag. An item is
brandable when it is of the class passed as `item_type` (the source passes `OBJ_WEAPONS` at
every call; in the data model of the spec the base category must be the weapon class for an
item to be brandable) and is not an artefact (in the data model of the spec artefacts are
always ineligible); any other item is left as it is. -/
def set_item_ego_type (item : item_def) (item_type : object_class_type)
    (ego_type : brand_type) : item_def :=
  if item.base_type = item_type ∧ item.artefact = false then
    { item with brand := ego_type }
  else item

/-- Modelled from the spec: `is_artefact` (artefact.cc) is missing from the sources; the spec
gives the item an `is_artefact` flag. -/
def is_artefact (item : item_def) : Bool :=
  item.artefact

/-- Modelled from the spec: `is_range_weapon` (item-prop.cc) is missing from the sources; it
is an attribute of the item that branding does not change. -/
def is_range_weapon (item : item_def) : Bool :=
  item.ranged

/-- Modelled from the spec: `is_holy_item` (god-item.cc) is missing from the sources; the
spec gives the item an `is_holy` flag. -/
def is_holy_item (item : item_def) : Bool :=
  item.holy

/-- Modelled from the spec: `roll_dice` (random.cc) is missing from the sources; the spec
calls it a dice-style draw: `num` dice of `size` sides, the face of die `i` being
`1 + rnd i % size`, and nothing for an empty or sideless roll. -/
def roll_dice (num size : Int) (rnd : Nat → Nat) : Int :=
  if 0 < num ∧ 0 < size then
    num + ((List.range num.toNat).map (fun i => (rnd i : Int) % size)).sum
  else 0

/-- Modelled from the spec: `player::increase_duration` (player.cc) is missing from the
sources; the spec has it increase the counter of the slot by the given amount and register
the kind-specific divisor with it. -/
def increase_duration (you : player) (dur : duration_type) (turns : Int)
    (divisor : Int) : player :=
  { you with
    duration := Function.update you.duration dur (you.duration dur + turns)
    decay := Function.update you.decay dur divisor }

/-- Modelled from the spec: `random2` (random.cc) is missing from the sources; like one die
of `roll_dice` without its offset, it draws a number from 0 up to `max - 1`, here
`draw % max`, and gives 0 when there is nothing to draw from. -/
def random2 (max : Int) (draw : Nat) : Int :=
  if max ≤ 1 then 0 else (draw : Int) % max

/-- Modelled from the spec: `player::set_duration` (player.cc) is missing from the sources;
the spec has it put the counter of the slot at the given value and register the divisor of
the slot with it. -/
def set_duration (you : player) (dur : duration_type) (turns : Int)
    (divisor : Int) : player :=
  { you with
    duration := Function.update you.duration dur turns
    decay := Function.update you.decay dur divisor }

/-- The side effect `MiscastEffect(&you, nullptr, source, school, level, severity,
cause)`: the call is recorded. -/
def MiscastEffect (you : player) (school : spschool) (level severity : Int)
    (cause : String) : player :=
  { you with miscasts := you.miscasts ++ [⟨school, level, severity, cause⟩] }

/-- The hook `calc_mp()`: the call is counted. -/
def calc_mp (you : player) : player :=
  { you with calc_mp_calls := you.calc_mp_calls + 1 }

/-- The call `noisy(spell_effect_noise(SPELL_EXCRUCIATING_WOUNDS), you.pos())`: counted. -/
def noisy (you : player) : player :=
  { you with noise_events := you.noise_events + 1 }

/-- Modelled from the spec: `unequip_item` (player-equip.cc) is missing from the sources; the
spec has `unequip_item(EQ_WEAPON)` force-unwield the item in the weapon slot. The call is
counted. -/
def unequip_item (you : player) (slot : equipment_type) : player :=
  match slot with
  | equipment_type.EQ_WEAPON => { you with equip_weapon := none, unequips := you.unequips + 1 }
  | equipment_type.EQ_OTHER _ => { you with unequips := you.unequips + 1 }

/-- One call of `yesno`: counted; its answer is an input of the cast. -/
def yesno_asked (you : player) : player :=
  { you with prompts := you.prompts + 1 }

/-- One call of `roll_dice`: counted; its result is `roll_dice num size rnd`. -/
def dice_rolled (you : player) : player :=
  { you with dice_rolls := you.dice_rolls + 1 }

/-- Reading `you.props[ORIGINAL_BRAND_KEY]` as a brand: the stored tag, and the
zero tag `SPWPN_NORMAL` of a freshly created entry when the key is absent. -/
def original_brand (you : player) : brand_type :=
  you.props.getD brand_type.SPWPN_NORMAL

/-- The assignment `you.props[ORIGINAL_BRAND_KEY] = brand`. -/
def props_set (you : player) (brand : brand_type) : player :=
  { you with props := some brand }

/-- The call `you.props.erase(ORIGINAL_BRAND_KEY)`. -/
def props_erase (you : player) : player :=
  { you with props := none }

/-- The assignment `you.duration[dur] = value`. -/
def duration_set (you : player) (dur : duration_type) (value : Int) : player :=
  { you with duration := Function.update you.duration dur value }

/-- The assignment `you.wield_change = true`. -/
def wield_change_set (you : player) : player :=
  { you with wield_change := true }

/-- The assignment `you.redraw_armour_class = true`. -/
def redraw_armour_class_set (you : player) : player :=
  { you with redraw_armour_class := true }

/-- The call `set_item_ego_type(weapon, item_type, ego_type)` on the item `weapon` of the
store. -/
def item_ego_set (you : player) (weapon : Nat) (item_type : object_class_type)
    (ego_type : brand_type) : player :=
  { you with
    inv := Function.update you.inv weapon
      (set_item_ego_type (you.inv weapon) item_type ego_type) }

open brand_type object_class_type weapon_type duration_type

/-! ## The operations of spl-wpnench.cc -/

/-- `end_weapon_brand(weapon, verbose)`: `none` when the `ASSERT` fails. -/
def end_weapon_brand (you : player) (weapon : Nat) (verbose : Bool) : Option player :=
  if you.duration DUR_EXCRUCIATING_WOUNDS ≠ 0 ∨ you.duration DUR_POISON_WEAPON ≠ 0 then
    let pain : Bool := decide (you.duration DUR_EXCRUCIATING_WOUNDS > 0)
    let you1 : player := item_ego_set you weapon OBJ_WEAPONS (original_brand you)
    let you2 : player := props_erase you1
    let you3 : player := duration_set you2 DUR_EXCRUCIATING_WOUNDS 0
    let you4 : player := duration_set you3 DUR_POISON_WEAPON 0
    let you5 : player :=
      if verbose = true then
        mpr you4 (if pain = true then "%s seems less pained." else "%s seems less toxic.")
      else you4
    let you6 : player := wield_change_set you5
    let real_brand := get_weapon_brand (you6.inv weapon)
    let you7 : player := if real_brand = SPWPN_ANTIMAGIC then calc_mp you6 else you6
    if you7.equip_weapon.isSome = true ∧ is_holy_item (you7.inv weapon) = true
        ∧ you7.form = transformation.lich then
      some (unequip_item (mpr you7 "%s falls away!") equipment_type.EQ_WEAPON)
    else some you7
  else none

/-- `poison_brand_weapon(power, fail)`; `yes` is the answer `yesno` gives if asked, `rnd`
the random draws. The macro `fail_check()` is not in the sources; modelled from the spec and
from the documented return values ("Success, fail, or abort"), it returns `spret::fail`
when `fail` is set. -/
def poison_brand_weapon (you : player) (power : Int) (fail yes : Bool)
    (rnd : Nat → Nat) : spret × player :=
  if you.duration DUR_ELEMENTAL_WEAPON ≠ 0 ∨ you.duration DUR_EXCRUCIATING_WOUNDS ≠ 0 then
    (spret.abort, mpr you "You are already using a magical weapon.")
  else
    match you.equip_weapon with
    | none => (spret.abort, mpr you "You do not have weapons.")
    | some w =>
      if (you.inv w).base_type ≠ OBJ_WEAPONS then
        (spret.abort, mpr you "This is not a weapon.")
      else
        let which_brand := SPWPN_VENOM
        let orig_brand := get_weapon_brand (you.inv w)
        let has_temp_brand : Bool := decide (you.duration DUR_POISON_WEAPON ≠ 0)
        if has_temp_brand = false ∧ get_weapon_brand (you.inv w) = which_brand then
          (spret.abort, mpr you "This weapon is already branded with venom.")
        else if (you.inv w).sub_type = WPN_BLOWGUN then
          (spret.abort, mpr you "You cannot brand blowgun.")
        else if is_artefact (you.inv w) = true then
          (spret.abort, mpr you "You can't brand this weapon.")
        else
          let dangerous_disto : Bool :=
            decide (orig_brand = SPWPN_DISTORTION) && !you.safe_distortion
          if dangerous_disto = true ∧ yes = false then
            (spret.abort, mpr (yesno_asked you) "Okay, then.")
          else
            let you1 : player := if dangerous_disto = true then yesno_asked you else you
            if fail = true then (spret.fail, you1)
            else
              let you2 : player :=
                if dangerous_disto = true then
                  MiscastEffect you1 spschool.translocation 9 90
                    "rebranding a weapon of distortion"
                else you1
              let you3 : player := mpr you2 "%s starts dripping with poison."
              let you4 : player :=
                if has_temp_brand = false then
                  let a1 : player := props_set you3 (get_weapon_brand (you3.inv w))
                  let a2 : player := item_ego_set a1 w OBJ_WEAPONS which_brand
                  let a3 : player := wield_change_set a2
                  let a4 : player :=
                    if a3.duration DUR_SPWPN_PROTECTION ≠ 0 then
                      redraw_armour_class_set (duration_set a3 DUR_SPWPN_PROTECTION 0)
                    else a3
                  if orig_brand = SPWPN_ANTIMAGIC then calc_mp a4 else a4
                else you3
              (spret.success,
                increase_duration (dice_rolled you4) DUR_POISON_WEAPON
                  (8 + roll_dice 2 power rnd) 100)

/-- `cast_excruciating_wounds(power, fail)`; `none` when `*you.weapon()` dereferences a null
pointer. `fail_check()` is modelled as in `poison_brand_weapon`. -/
def cast_excruciating_wounds (you : player) (power : Int) (fail yes : Bool)
    (rnd : Nat → Nat) : Option (spret × player) :=
  if you.duration DUR_ELEMENTAL_WEAPON ≠ 0 ∨ you.duration DUR_POISON_WEAPON ≠ 0 then
    some (spret.abort, mpr you "You are already using a magical weapon.")
  else
    match you.equip_weapon with
    | none => none
    | some w =>
      let which_brand := SPWPN_PAIN
      let orig_brand := get_weapon_brand (you.inv w)
      if is_range_weapon (you.inv w) = true then
        some (spret.abort, mpr you "You cannot brand ranged weapons with this spell.")
      else
        let has_temp_brand : Bool := decide (you.duration DUR_EXCRUCIATING_WOUNDS ≠ 0)
        if has_temp_brand = false ∧ get_weapon_brand (you.inv w) = which_brand then
          some (spret.abort, mpr you "This weapon is already branded with pain.")
        else
          let dangerous_disto : Bool :=
            decide (orig_brand = SPWPN_DISTORTION) && !you.safe_distortion
          if dangerous_disto = true ∧ yes = false then
            some (spret.abort, mpr (yesno_asked you) "Okay, then.")
          else
            let you1 : player := if dangerous_disto = true then yesno_asked you else you
            if fail = true then some (spret.fail, you1)
            else
              let you2 : player :=
                if dangerous_disto = true then
                  MiscastEffect you1 spschool.translocation 9 90
                    "rebranding a weapon of distortion"
                else you1
              let you3 : player := noisy you2
              let you4 : player :=
                mpr you3
                  (if you3.silenced = true then "%s writhes in agony."
                   else "%s shrieks in agony.")
              let you5 : player :=
                if has_temp_brand = false then
                  let a1 : player := props_set you4 (get_weapon_brand (you4.inv w))
                  let a2 : player := item_ego_set a1 w OBJ_WEAPONS which_brand
                  let a3 : player := wield_change_set a2
                  let a4 : player :=
                    if a3.duration DUR_SPWPN_PROTECTION ≠ 0 then
                      redraw_armour_class_set (duration_set a3 DUR_SPWPN_PROTECTION 0)
                    else a3
                  if orig_brand = SPWPN_ANTIMAGIC then calc_mp a4 else a4
                else you4
              some (spret.success,
                increase_duration (dice_rolled you5) DUR_EXCRUCIATING_WOUNDS
                  (8 + roll_dice 2 power rnd) 50)

/-- `cast_confusing_touch(power, fail)`; `rnd 0` is the raw draw of `random2`. The text of
`you.hands_act("begin", "to glow ")` is left as `%s`; `fail_check()` is modelled as in
`poison_brand_weapon`. -/
def cast_confusing_touch (you : player) (power : Int) (fail : Bool)
    (rnd : Nat → Nat) : spret × player :=
  if fail = true then (spret.fail, you)
  else
    let you1 : player :=
      mpr you (if you.duration DUR_CONFUSING_TOUCH ≠ 0 then "%sbrighter." else "%sred.")
    let you2 : player :=
      set_duration you1 DUR_CONFUSING_TOUCH
        (max (10 + Int.tdiv (random2 power (rnd 0)) 5) (you1.duration DUR_CONFUSING_TOUCH)) 20
    (spret.success, you2)

/-- `cast_poison_gland(power, fail)`; `fail_check()` is modelled as in
`poison_brand_weapon`. -/
def cast_poison_gland (you : player) (power : Int) (fail : Bool)
    (rnd : Nat → Nat) : spret × player :=
  if fail = true then (spret.fail, you)
  else
    let you1 : player :=
      if ¬ (you.duration DUR_POISON_GLAND ≠ 0) then
        mpr you "Your weapon begins to release the poison glands."
      else mpr you "You extend your poison gland duration."
    (spret.success,
      increase_duration (dice_rolled you1) DUR_POISON_GLAND
        (10 + roll_dice 2 (Int.tdiv power 2) rnd) 100)

/-! ## The brand kinds and the state machine -/

/-- The two temporary brand kinds ("K" in the specification). -/
inductive brand_kind where
  | poison
  | pain
  deriving DecidableEq, Repr

/-- The duration slot of a brand kind. -/
def brand_kind.dur : brand_kind → duration_type
  | brand_kind.poison => DUR_POISON_WEAPON
  | brand_kind.pain => DUR_EXCRUCIATING_WOUNDS

/-- The duration slot of the other, mutually exclusive brand kind. -/
def brand_kind.other_dur : brand_kind → duration_type
  | brand_kind.poison => DUR_EXCRUCIATING_WOUNDS
  | brand_kind.pain => DUR_POISON_WEAPON

/-- The brand tag a kind puts on the weapon (`which_brand`). -/
def brand_kind.tag : brand_kind → brand_type
  | brand_kind.poison => SPWPN_VENOM
  | brand_kind.pain => SPWPN_PAIN

/-- The cast operation of a brand kind; `none` when the operation has no successor state. -/
def cast (K : brand_kind) (you : player) (power : Int) (fail yes : Bool)
    (rnd : Nat → Nat) : Option (spret × player) :=
  match K with
  | brand_kind.poison => some (poison_brand_weapon you power fail yes rnd)
  | brand_kind.pain => cast_excruciating_wounds you power fail yes rnd

/-- One call of one of the three operations that returns, with arbitrary arguments. -/
inductive Step : player → player → Prop where
  | poison (you : player) (power : Int) (fail yes : Bool) (rnd : Nat → Nat) :
      Step you (poison_brand_weapon you power fail yes rnd).2
  | pain (you : player) (power : Int) (fail yes : Bool) (rnd : Nat → Nat)
      (r : spret) (you' : player) :
      cast_excruciating_wounds you power fail yes rnd = some (r, you') → Step you you'
  | expire (you : player) (weapon : Nat) (verbose : Bool) (you' : player) :
      end_weapon_brand you weapon verbose = some you' → Step you you'

/-- States reachable from `init` by a sequence of calls. -/
inductive Reachable (init : player) : player → Prop where
  | start : Reachable init init
  | next (s t : player) : Reachable init s → Step s t → Reachable init t

/-- Zero or more successful casts of kind `K` in a row. -/
inductive Recast (K : brand_kind) : player → player → Prop where
  | done (s : player) : Recast K s s
  | again (s t u : player) (power : Int) (fail yes : Bool) (rnd : Nat → Nat) :
      Recast K s t → cast K t power fail yes rnd = some (spret.success, u) → Recast K s u

/-- The state `b` agrees with `a` on the items (so on every brand), every duration and its
registered parameter, the saved brand, the wielded slot, the two dirty flags and the logs
of dice rolls, miscasts and mana recalculations. -/
def unchanged (a b : player) : Prop :=
  b.inv = a.inv ∧ b.duration = a.duration ∧ b.decay = a.decay ∧ b.props = a.props
  ∧ b.equip_weapon = a.equip_weapon ∧ b.wield_change = a.wield_change
  ∧ b.redraw_armour_class = a.redraw_armour_class ∧ b.dice_rolls = a.dice_rolls
  ∧ b.miscasts = a.miscasts ∧ b.calc_mp_calls = a.calc_mp_calls

/-! ## Concrete states used as examples -/

/-- A plain, non-artefact melee weapon with the fire brand. -/
def fire_sword : item_def :=
  ⟨OBJ_WEAPONS, WPN_OTHER 0, SPWPN_FLAMING, false, false, false⟩

/-- A player wielding `fire_sword` (item 0), with every duration at zero and no saved
brand. -/
def fresh : player :=
  { duration := fun _ => 0, decay := fun _ => 0, props := none, inv := fun _ => fire_sword,
    equip_weapon := some 0, form := transformation.none, safe_distortion := false,
    silenced := false, wield_change := false, redraw_armour_class := false, messages := [],
    prompts := 0, dice_rolls := 0, miscasts := [], calc_mp_calls := 0, noise_events := 0,
    unequips := 0 }

/-- The state `fresh` with the given brand on the wielded weapon. -/
def wielding (brand : brand_type) : player :=
  { fresh with inv := fun _ => { fire_sword with brand := brand } }

/-- A player whose wielded fire weapon carries a running pain brand of 20 turns. -/
def pained : player :=
  { wielding SPWPN_PAIN with
    duration := fun d => if d = DUR_EXCRUCIATING_WOUNDS then 20 else 0
    props := some SPWPN_FLAMING }

/-- A player whose wielded fire weapon carries a running venom brand of 20 turns. -/
def poisoned : player :=
  { wielding SPWPN_VENOM with
    duration := fun d => if d = DUR_POISON_WEAPON then 20 else 0
    props := some SPWPN_FLAMING }

/-- A player wielding an artefact melee weapon with the fire brand, every duration at
zero. -/
def artefact_wielder : player :=
  { fresh with inv := fun _ => { fire_sword with artefact := true } }

/-- A player wielding a plain melee weapon of distortion, without the `safe_distortion`
passive, every duration at zero. -/
def distortion_wielder : player :=
  wielding SPWPN_DISTORTION

/-- The state `fresh` with nothing wielded: `you.weapon()` is null. -/
def unarmed : player :=
  { fresh with equip_weapon := none }

/-- The state `fresh` with the wielded item of another class than `OBJ_WEAPONS` (a staff,
say), melee and without brand. -/
def staff_wielder : player :=
  { fresh with
    inv := fun _ => { fire_sword with base_type := OBJ_OTHER 0, brand := SPWPN_NORMAL } }

/-- A state in which both brand durations are nonzero. -/
def both_running : player :=
  { wielding SPWPN_VENOM with
    duration := fun d =>
      if d = DUR_POISON_WEAPON ∨ d = DUR_EXCRUCIATING_WOUNDS then 20 else 0
    props := some SPWPN_FLAMING }

/-- A player in lich form whose wielded holy weapon (item 0) carries a running pain
brand. -/
def lich_wielder : player :=
  { pained with
    inv := fun _ => { fire_sword with brand := SPWPN_PAIN, holy := true }
    form := transformation.lich }

/-- The state `lich_wielder` after item 0 has been unwielded: `you.weapon()` is null while
the pain brand is still running. -/
def lich_unwielded : player :=
  { lich_wielder with equip_weapon := none }

/-- The state `poisoned` with a distortion brand saved under `ORIGINAL_BRAND_KEY`: the
venom brand runs on a weapon whose own brand is distortion, and the player lacks the
`safe_distortion` passive. -/
def poisoned_distortion : player :=
  { poisoned with props := some SPWPN_DISTORTION }

/-- Random draws that are all 3. -/
def threes : Nat → Nat := fun _ => 3

/-! ## Lemmas on the collaborators -/

theorem roll_dice_nonneg (num size : Int) (rnd : Nat → Nat) : 0 ≤ roll_dice num size rnd := by
  unfold roll_dice
  split_ifs with h
  · have hs : 0 ≤ ((List.range num.toNat).map (fun i => (rnd i : Int) % size)).sum := by
      apply List.sum_nonneg
      intro x hx
      rcases List.mem_map.1 hx with ⟨i, _, rfl⟩
      exact Int.emod_nonneg _ (ne_of_gt h.2)
    omega
  · exact le_refl 0

/-- On an item of the class passed that is not an artefact, `set_item_ego_type` puts the
tag on the item. -/
theorem set_item_ego_type_brand (item : item_def) (item_type : object_class_type)
    (ego_type : brand_type)
    (hc : item.base_type = item_type) (ha : is_artefact item = false) :
    get_weapon_brand (set_item_ego_type item item_type ego_type) = ego_type := by
  simp only [is_artefact] at ha
  simp [set_item_ego_type, get_weapon_brand, hc, ha]

/-- Setting a tag and then setting the brand the item had before gives that brand back,
whether or not the item is brandable. -/
theorem set_item_ego_type_restore (item : item_def) (item_type : object_class_type)
    (ego_type : brand_type) :
    get_weapon_brand
      (set_item_ego_type (set_item_ego_type item item_type ego_type) item_type
        (get_weapon_brand item))
      = get_weapon_brand item := by
  unfold set_item_ego_type get_weapon_brand
  by_cases h : item.base_type = item_type ∧ item.artefact = false
  · simp [h]
  · simp [h]

/-! ## Lemmas on the three operations -/

/-- A passing assertion: `end_weapon_brand` returns, with both brand durations at zero, the
saved brand erased and the saved brand set on the item by `set_item_ego_type`. -/
theorem end_weapon_brand_some (you : player) (weapon : Nat) (verbose : Bool)
    (h : you.duration DUR_EXCRUCIATING_WOUNDS ≠ 0 ∨ you.duration DUR_POISON_WEAPON ≠ 0) :
    ∃ you', end_weapon_brand you weapon verbose = some you'
      ∧ you'.duration DUR_POISON_WEAPON = 0
      ∧ you'.duration DUR_EXCRUCIATING_WOUNDS = 0
      ∧ you'.props = none
      ∧ you'.inv weapon
          = set_item_ego_type (you.inv weapon) OBJ_WEAPONS (original_brand you) := by
  unfold end_weapon_brand
  rw [if_pos h]
  simp only []
  split_ifs <;>
    simp [mpr, calc_mp, props_erase, item_ego_set, wield_change_set, duration_set,
      unequip_item, get_weapon_brand, Function.update_apply]

/-- A failing assertion: `end_weapon_brand` has no successor state. -/
theorem end_weapon_brand_none (you : player) (weapon : Nat) (verbose : Bool)
    (h : ¬ (you.duration DUR_EXCRUCIATING_WOUNDS ≠ 0 ∨ you.duration DUR_POISON_WEAPON ≠ 0)) :
    end_weapon_brand you weapon verbose = none := by
  unfold end_weapon_brand
  rw [if_neg h]

/-- A cast of `poison_brand_weapon` that does not succeed changes nothing but the message
and prompt logs. -/
theorem poison_frame (you you' : player) (power : Int) (fail yes : Bool)
    (rnd : Nat → Nat) (r : spret)
    (h : poison_brand_weapon you power fail yes rnd = (r, you')) (hr : r ≠ spret.success) :
    unchanged you you' := by
  unfold unchanged
  unfold poison_brand_weapon at h
  by_cases c1 : you.duration DUR_ELEMENTAL_WEAPON ≠ 0 ∨ you.duration DUR_EXCRUCIATING_WOUNDS ≠ 0
  · rw [if_pos c1] at h; cases h; simp [mpr, yesno_asked]
  rw [if_neg c1] at h
  cases hw : you.equip_weapon with
  | none => rw [hw] at h; cases h; simp [mpr, yesno_asked, hw]
  | some w =>
    rw [hw] at h
    simp only [] at h
    by_cases c2 : (you.inv w).base_type ≠ OBJ_WEAPONS
    · rw [if_pos c2] at h; cases h; simp [mpr, yesno_asked, hw]
    rw [if_neg c2] at h
    by_cases c3 : decide (you.duration DUR_POISON_WEAPON ≠ 0) = false
        ∧ get_weapon_brand (you.inv w) = SPWPN_VENOM
    · rw [if_pos c3] at h; cases h; simp [mpr, yesno_asked, hw]
    rw [if_neg c3] at h
    by_cases c4 : (you.inv w).sub_type = WPN_BLOWGUN
    · rw [if_pos c4] at h; cases h; simp [mpr, yesno_asked, hw]
    rw [if_neg c4] at h
    by_cases c5 : is_artefact (you.inv w) = true
    · rw [if_pos c5] at h; cases h; simp [mpr, yesno_asked, hw]
    rw [if_neg c5] at h
    by_cases c6 : (decide (get_weapon_brand (you.inv w) = SPWPN_DISTORTION)
        && !you.safe_distortion) = true ∧ yes = false
    · rw [if_pos c6] at h; cases h; simp [mpr, yesno_asked, hw]
    rw [if_neg c6] at h
    by_cases c7 : fail = true
    · rw [if_pos c7] at h
      cases h
      by_cases d : (decide (get_weapon_brand (you.inv w) = SPWPN_DISTORTION)
          && !you.safe_distortion) = true <;> simp [d, yesno_asked, hw]
    rw [if_neg c7] at h
    cases h
    exact absurd rfl hr

/-- What a successful `poison_brand_weapon` does. -/
theorem poison_success (you you' : player) (power : Int) (fail yes : Bool) (rnd : Nat → Nat)
    (h : poison_brand_weapon you power fail yes rnd = (spret.success, you')) :
    ∃ w, you.equip_weapon = some w
      ∧ you.duration DUR_EXCRUCIATING_WOUNDS = 0
      ∧ you'.equip_weapon = some w
      ∧ you'.duration DUR_EXCRUCIATING_WOUNDS = 0
      ∧ you'.duration DUR_POISON_WEAPON
          = you.duration DUR_POISON_WEAPON + (8 + roll_dice 2 power rnd)
      ∧ you'.decay DUR_POISON_WEAPON = 100
      ∧ you'.dice_rolls = you.dice_rolls + 1
      ∧ (you.duration DUR_POISON_WEAPON = 0 →
          you'.props = some (get_weapon_brand (you.inv w))
          ∧ you'.inv w = set_item_ego_type (you.inv w) OBJ_WEAPONS SPWPN_VENOM
          ∧ get_weapon_brand (you'.inv w) = SPWPN_VENOM
          ∧ you'.duration DUR_SPWPN_PROTECTION = 0)
      ∧ (you.duration DUR_POISON_WEAPON ≠ 0 →
          you'.props = you.props ∧ you'.inv = you.inv
          ∧ you'.duration DUR_SPWPN_PROTECTION = you.duration DUR_SPWPN_PROTECTION) := by
  unfold poison_brand_weapon at h
  by_cases c1 : you.duration DUR_ELEMENTAL_WEAPON ≠ 0 ∨ you.duration DUR_EXCRUCIATING_WOUNDS ≠ 0
  · rw [if_pos c1] at h; cases h
  rw [if_neg c1] at h
  cases hw : you.equip_weapon with
  | none => rw [hw] at h; cases h
  | some w =>
    rw [hw] at h
    simp only [] at h
    by_cases c2 : (you.inv w).base_type ≠ OBJ_WEAPONS
    · rw [if_pos c2] at h; cases h
    rw [if_neg c2] at h
    by_cases c3 : decide (you.duration DUR_POISON_WEAPON ≠ 0) = false
        ∧ get_weapon_brand (you.inv w) = SPWPN_VENOM
    · rw [if_pos c3] at h; cases h
    rw [if_neg c3] at h
    by_cases c4 : (you.inv w).sub_type = WPN_BLOWGUN
    · rw [if_pos c4] at h; cases h
    rw [if_neg c4] at h
    by_cases c5 : is_artefact (you.inv w) = true
    · rw [if_pos c5] at h; cases h
    rw [if_neg c5] at h
    by_cases c6 : (decide (get_weapon_brand (you.inv w) = SPWPN_DISTORTION)
        && !you.safe_distortion) = true ∧ yes = false
    · rw [if_pos c6] at h; cases h
    rw [if_neg c6] at h
    by_cases c7 : fail = true
    · rw [if_pos c7] at h
      cases h
    rw [if_neg c7] at h
    simp only [Prod.mk.injEq, true_and] at h
    subst h
    have e1 : you.duration DUR_EXCRUCIATING_WOUNDS = 0 := by
      by_contra hne; exact c1 (Or.inr hne)
    have e2 : (you.inv w).base_type = OBJ_WEAPONS := not_not.mp c2
    have e5 : (you.inv w).artefact = false := by simpa [is_artefact] using c5
    simp only [get_weapon_brand] at *
    by_cases d : (decide ((you.inv w).brand = SPWPN_DISTORTION)
        && !you.safe_distortion) = true <;>
    by_cases t : you.duration DUR_POISON_WEAPON = 0 <;>
    by_cases p : you.duration DUR_SPWPN_PROTECTION = 0 <;>
    by_cases a : (you.inv w).brand = SPWPN_ANTIMAGIC <;>
    simp [d, t, p, a, e1, e2, e5, hw, mpr, yesno_asked, MiscastEffect, increase_duration,
          dice_rolled, noisy, calc_mp, props_set, item_ego_set, wield_change_set,
          redraw_armour_class_set, duration_set, set_item_ego_type, Function.update_apply]

/-- A cast of `cast_excruciating_wounds` that returns without success changes nothing but
the message and prompt logs. -/
theorem pain_frame (you you' : player) (power : Int) (fail yes : Bool)
    (rnd : Nat → Nat) (r : spret)
    (h : cast_excruciating_wounds you power fail yes rnd = some (r, you'))
    (hr : r ≠ spret.success) :
    unchanged you you' := by
  unfold unchanged
  unfold cast_excruciating_wounds at h
  by_cases c1 : you.duration DUR_ELEMENTAL_WEAPON ≠ 0 ∨ you.duration DUR_POISON_WEAPON ≠ 0
  · rw [if_pos c1] at h; simp only [Option.some.injEq] at h; cases h; simp [mpr, yesno_asked]
  rw [if_neg c1] at h
  cases hw : you.equip_weapon with
  | none => rw [hw] at h; cases h
  | some w =>
    rw [hw] at h
    simp only [] at h
    by_cases c2 : is_range_weapon (you.inv w) = true
    · rw [if_pos c2] at h; simp only [Option.some.injEq] at h; cases h; simp [mpr, yesno_asked, hw]
    rw [if_neg c2] at h
    by_cases c3 : decide (you.duration DUR_EXCRUCIATING_WOUNDS ≠ 0) = false
        ∧ get_weapon_brand (you.inv w) = SPWPN_PAIN
    · rw [if_pos c3] at h; simp only [Option.some.injEq] at h; cases h; simp [mpr, yesno_asked, hw]
    rw [if_neg c3] at h
    by_cases c6 : (decide (get_weapon_brand (you.inv w) = SPWPN_DISTORTION)
        && !you.safe_distortion) = true ∧ yes = false
    · rw [if_pos c6] at h; simp only [Option.some.injEq] at h; cases h; simp [mpr, yesno_asked, hw]
    rw [if_neg c6] at h
    by_cases c7 : fail = true
    · rw [if_pos c7] at h
      simp only [Option.some.injEq] at h; cases h
      by_cases d : (decide (get_weapon_brand (you.inv w) = SPWPN_DISTORTION)
          && !you.safe_distortion) = true <;> simp [d, yesno_asked, hw]
    rw [if_neg c7] at h
    simp only [Option.some.injEq] at h; cases h
    exact absurd rfl hr

/-- What a successful `cast_excruciating_wounds` does. -/
theorem pain_success (you you' : player) (power : Int) (fail yes : Bool) (rnd : Nat → Nat)
    (h : cast_excruciating_wounds you power fail yes rnd = some (spret.success, you')) :
    ∃ w, you.equip_weapon = some w
      ∧ you.duration DUR_POISON_WEAPON = 0
      ∧ you'.equip_weapon = some w
      ∧ you'.duration DUR_POISON_WEAPON = 0
      ∧ you'.duration DUR_EXCRUCIATING_WOUNDS
          = you.duration DUR_EXCRUCIATING_WOUNDS + (8 + roll_dice 2 power rnd)
      ∧ you'.decay DUR_EXCRUCIATING_WOUNDS = 50
      ∧ you'.dice_rolls = you.dice_rolls + 1
      ∧ (you.duration DUR_EXCRUCIATING_WOUNDS = 0 →
          you'.props = some (get_weapon_brand (you.inv w))
          ∧ you'.inv w = set_item_ego_type (you.inv w) OBJ_WEAPONS SPWPN_PAIN
          ∧ you'.duration DUR_SPWPN_PROTECTION = 0)
      ∧ (you.duration DUR_EXCRUCIATING_WOUNDS ≠ 0 →
          you'.props = you.props ∧ you'.inv = you.inv
          ∧ you'.duration DUR_SPWPN_PROTECTION = you.duration DUR_SPWPN_PROTECTION) := by
  unfold cast_excruciating_wounds at h
  by_cases c1 : you.duration DUR_ELEMENTAL_WEAPON ≠ 0 ∨ you.duration DUR_POISON_WEAPON ≠ 0
  · rw [if_pos c1] at h; simp only [Option.some.injEq] at h; cases h
  rw [if_neg c1] at h
  cases hw : you.equip_weapon with
  | none => rw [hw] at h; cases h
  | some w =>
    rw [hw] at h
    simp only [] at h
    by_cases c2 : is_range_weapon (you.inv w) = true
    · rw [if_pos c2] at h; simp only [Option.some.injEq] at h; cases h
    rw [if_neg c2] at h
    by_cases c3 : decide (you.duration DUR_EXCRUCIATING_WOUNDS ≠ 0) = false
        ∧ get_weapon_brand (you.inv w) = SPWPN_PAIN
    · rw [if_pos c3] at h; simp only [Option.some.injEq] at h; cases h
    rw [if_neg c3] at h
    by_cases c6 : (decide (get_weapon_brand (you.inv w) = SPWPN_DISTORTION)
        && !you.safe_distortion) = true ∧ yes = false
    · rw [if_pos c6] at h; simp only [Option.some.injEq] at h; cases h
    rw [if_neg c6] at h
    by_cases c7 : fail = true
    · rw [if_pos c7] at h
      simp only [Option.some.injEq] at h; cases h
    rw [if_neg c7] at h
    simp only [Option.some.injEq] at h; simp only [Prod.mk.injEq, true_and] at h
    subst h
    have e1 : you.duration DUR_POISON_WEAPON = 0 := by
      by_contra hne; exact c1 (Or.inr hne)
    simp only [get_weapon_brand] at *
    by_cases d : (decide ((you.inv w).brand = SPWPN_DISTORTION)
        && !you.safe_distortion) = true <;>
    by_cases t : you.duration DUR_EXCRUCIATING_WOUNDS = 0 <;>
    by_cases p : you.duration DUR_SPWPN_PROTECTION = 0 <;>
    by_cases a : (you.inv w).brand = SPWPN_ANTIMAGIC <;>
    simp [d, t, p, a, e1, hw, mpr, yesno_asked, MiscastEffect, increase_duration, dice_rolled, noisy,
          calc_mp, props_set, item_ego_set, wield_change_set, redraw_armour_class_set,
          duration_set, set_item_ego_type, Function.update_apply]

/-! ## Invariants of the state machine -/

/-- One step keeps at most one of the two brand durations nonzero. -/
theorem step_exclusive (s t : player) (hst : Step s t)
    (h : s.duration DUR_POISON_WEAPON = 0 ∨ s.duration DUR_EXCRUCIATING_WOUNDS = 0) :
    t.duration DUR_POISON_WEAPON = 0 ∨ t.duration DUR_EXCRUCIATING_WOUNDS = 0 := by
  cases hst with
  | poison power fail yes rnd =>
    rcases hres : poison_brand_weapon s power fail yes rnd with ⟨r, t⟩
    by_cases hr : r = spret.success
    · subst hr
      obtain ⟨w, -, -, -, h4, -⟩ := poison_success s t power fail yes rnd hres
      exact Or.inr h4
    · obtain ⟨-, hd, -⟩ := poison_frame s t power fail yes rnd r hres hr
      simpa [hd] using h
  | pain power fail yes rnd r _ hres =>
    by_cases hr : r = spret.success
    · subst hr
      obtain ⟨w, -, -, -, h4, -⟩ := pain_success s t power fail yes rnd hres
      exact Or.inl h4
    · obtain ⟨-, hd, -⟩ := pain_frame s t power fail yes rnd r hres hr
      simpa [hd] using h
  | expire weapon verbose _ hres =>
    by_cases c : s.duration DUR_EXCRUCIATING_WOUNDS ≠ 0 ∨ s.duration DUR_POISON_WEAPON ≠ 0
    · obtain ⟨u, hu, h1, -⟩ := end_weapon_brand_some s weapon verbose c
      rw [hu] at hres
      cases hres
      exact Or.inl h1
    · rw [end_weapon_brand_none s weapon verbose c] at hres
      cases hres

/-- The invariant behind the saved-brand register: the brand durations are never negative,
and the register is filled exactly when exactly one of them is nonzero. -/
theorem step_register (s t : player) (hst : Step s t)
    (hp : 0 ≤ s.duration DUR_POISON_WEAPON) (he : 0 ≤ s.duration DUR_EXCRUCIATING_WOUNDS)
    (h : s.props.isSome = true ↔
      (s.duration DUR_POISON_WEAPON ≠ 0 ∧ s.duration DUR_EXCRUCIATING_WOUNDS = 0)
      ∨ (s.duration DUR_POISON_WEAPON = 0 ∧ s.duration DUR_EXCRUCIATING_WOUNDS ≠ 0)) :
    0 ≤ t.duration DUR_POISON_WEAPON ∧ 0 ≤ t.duration DUR_EXCRUCIATING_WOUNDS
    ∧ (t.props.isSome = true ↔
      (t.duration DUR_POISON_WEAPON ≠ 0 ∧ t.duration DUR_EXCRUCIATING_WOUNDS = 0)
      ∨ (t.duration DUR_POISON_WEAPON = 0 ∧ t.duration DUR_EXCRUCIATING_WOUNDS ≠ 0)) := by
  cases hst with
  | poison power fail yes rnd =>
    rcases hres : poison_brand_weapon s power fail yes rnd with ⟨r, t⟩
    by_cases hr : r = spret.success
    · subst hr
      obtain ⟨w, -, h2, -, h4, h5, -, -, h6, h7⟩ := poison_success s t power fail yes rnd hres
      have hroll := roll_dice_nonneg 2 power rnd
      have hpos : 0 < t.duration DUR_POISON_WEAPON := by rw [h5]; omega
      refine ⟨le_of_lt hpos, by rw [h4], ?_⟩
      have hsome : t.props.isSome = true := by
        by_cases hz : s.duration DUR_POISON_WEAPON = 0
        · rw [(h6 hz).1]; rfl
        · rw [(h7 hz).1]; exact h.2 (Or.inl ⟨hz, h2⟩)
      simp only [hsome, h4, true_iff]
      exact Or.inl ⟨ne_of_gt hpos, trivial⟩
    · obtain ⟨-, hd, -, hprops, -⟩ := poison_frame s t power fail yes rnd r hres hr
      simp only [hd, hprops]
      exact ⟨hp, he, h⟩
  | pain power fail yes rnd r _ hres =>
    by_cases hr : r = spret.success
    · subst hr
      obtain ⟨w, -, h2, -, h4, h5, -, -, h6, h7⟩ := pain_success s t power fail yes rnd hres
      have hroll := roll_dice_nonneg 2 power rnd
      have hpos : 0 < t.duration DUR_EXCRUCIATING_WOUNDS := by rw [h5]; omega
      refine ⟨by rw [h4], le_of_lt hpos, ?_⟩
      have hsome : t.props.isSome = true := by
        by_cases hz : s.duration DUR_EXCRUCIATING_WOUNDS = 0
        · rw [(h6 hz).1]; rfl
        · rw [(h7 hz).1]; exact h.2 (Or.inr ⟨h2, hz⟩)
      simp only [hsome, h4, true_iff]
      exact Or.inr ⟨trivial, ne_of_gt hpos⟩
    · obtain ⟨-, hd, -, hprops, -⟩ := pain_frame s t power fail yes rnd r hres hr
      simp only [hd, hprops]
      exact ⟨hp, he, h⟩
  | expire weapon verbose _ hres =>
    by_cases c : s.duration DUR_EXCRUCIATING_WOUNDS ≠ 0 ∨ s.duration DUR_POISON_WEAPON ≠ 0
    · obtain ⟨u, hu, h1, h2, h3, -⟩ := end_weapon_brand_some s weapon verbose c
      rw [hu] at hres
      cases hres
      simp [h1, h2, h3]
    · rw [end_weapon_brand_none s weapon verbose c] at hres
      cases hres

/-- The conflict gate of `poison_brand_weapon`. -/
theorem poison_conflict (you : player) (power : Int) (fail yes : Bool) (rnd : Nat → Nat)
    (h : you.duration DUR_ELEMENTAL_WEAPON ≠ 0 ∨ you.duration DUR_EXCRUCIATING_WOUNDS ≠ 0) :
    poison_brand_weapon you power fail yes rnd
      = (spret.abort, mpr you "You are already using a magical weapon.") := by
  unfold poison_brand_weapon
  rw [if_pos h]

/-- The conflict gate of `cast_excruciating_wounds`. -/
theorem pain_conflict (you : player) (power : Int) (fail yes : Bool) (rnd : Nat → Nat)
    (h : you.duration DUR_ELEMENTAL_WEAPON ≠ 0 ∨ you.duration DUR_POISON_WEAPON ≠ 0) :
    cast_excruciating_wounds you power fail yes rnd
      = some (spret.abort, mpr you "You are already using a magical weapon.") := by
  unfold cast_excruciating_wounds
  rw [if_pos h]

/-- The declined prompt of `poison_brand_weapon`: the gate is passed, the brand is an
unprotected distortion, and the answer is no. -/
theorem poison_declined (you : player) (w : Nat) (power : Int) (fail : Bool)
    (rnd : Nat → Nat)
    (h1 : you.duration DUR_ELEMENTAL_WEAPON = 0)
    (h2 : you.duration DUR_EXCRUCIATING_WOUNDS = 0)
    (hw : you.equip_weapon = some w)
    (hbase : (you.inv w).base_type = OBJ_WEAPONS)
    (hsub : (you.inv w).sub_type ≠ WPN_BLOWGUN)
    (hart : is_artefact (you.inv w) = false)
    (hb : get_weapon_brand (you.inv w) = SPWPN_DISTORTION)
    (hs : you.safe_distortion = false) :
    poison_brand_weapon you power fail false rnd
      = (spret.abort, mpr (yesno_asked you) "Okay, then.") := by
  unfold poison_brand_weapon
  rw [if_neg (by simp [h1, h2]), hw]
  simp only []
  rw [if_neg (by simp [hbase]), if_neg (by simp [hb]), if_neg hsub, if_neg (by simp [hart]),
    if_pos (by simp [hb, hs])]

/-- The declined prompt of `cast_excruciating_wounds`. -/
theorem pain_declined (you : player) (w : Nat) (power : Int) (fail : Bool)
    (rnd : Nat → Nat)
    (h1 : you.duration DUR_ELEMENTAL_WEAPON = 0)
    (h2 : you.duration DUR_POISON_WEAPON = 0)
    (hw : you.equip_weapon = some w)
    (hr : is_range_weapon (you.inv w) = false)
    (hb : get_weapon_brand (you.inv w) = SPWPN_DISTORTION)
    (hs : you.safe_distortion = false) :
    cast_excruciating_wounds you power fail false rnd
      = some (spret.abort, mpr (yesno_asked you) "Okay, then.") := by
  unfold cast_excruciating_wounds
  rw [if_neg (by simp [h1, h2]), hw]
  simp only []
  rw [if_neg (by simp [hr]), if_neg (by simp [hb]), if_pos (by simp [hb, hs])]

/-- The gate of `poison_brand_weapon` is passed: the cast returns `spret::fail` or
`spret::success` according to the fail flag. -/
theorem poison_gate_passed (you : player) (w : Nat) (power : Int) (fail yes : Bool)
    (rnd : Nat → Nat)
    (h1 : you.duration DUR_ELEMENTAL_WEAPON = 0)
    (h2 : you.duration DUR_EXCRUCIATING_WOUNDS = 0)
    (hw : you.equip_weapon = some w)
    (hbase : (you.inv w).base_type = OBJ_WEAPONS)
    (hsub : (you.inv w).sub_type ≠ WPN_BLOWGUN)
    (hart : is_artefact (you.inv w) = false)
    (hb : you.duration DUR_POISON_WEAPON = 0 → get_weapon_brand (you.inv w) ≠ SPWPN_VENOM)
    (hyes : get_weapon_brand (you.inv w) = SPWPN_DISTORTION → you.safe_distortion = false →
      yes = true) :
    (poison_brand_weapon you power fail yes rnd).1
      = if fail = true then spret.fail else spret.success := by
  unfold poison_brand_weapon
  rw [if_neg (by simp [h1, h2]), hw]
  simp only []
  rw [if_neg (by simp [hbase]), if_neg (by simpa using hb), if_neg hsub,
    if_neg (by simp [hart]), if_neg (by simpa using hyes)]
  by_cases hf : fail = true
  · rw [if_pos hf, if_pos hf]
  · rw [if_neg hf, if_neg hf]

/-- The already-branded gate of `poison_brand_weapon`: with a venom weapon wielded and no
venom duration running, the cast aborts at that gate or at an earlier one. -/
theorem poison_already (you : player) (w : Nat) (power : Int) (fail yes : Bool)
    (rnd : Nat → Nat)
    (hw : you.equip_weapon = some w)
    (hb : get_weapon_brand (you.inv w) = SPWPN_VENOM)
    (hd : you.duration DUR_POISON_WEAPON = 0) :
    (poison_brand_weapon you power fail yes rnd).1 = spret.abort := by
  unfold poison_brand_weapon
  by_cases c1 : you.duration DUR_ELEMENTAL_WEAPON ≠ 0 ∨ you.duration DUR_EXCRUCIATING_WOUNDS ≠ 0
  · rw [if_pos c1]
  rw [if_neg c1, hw]
  simp only []
  by_cases c2 : (you.inv w).base_type ≠ OBJ_WEAPONS
  · rw [if_pos c2]
  rw [if_neg c2, if_pos (by simp [hb, hd])]

/-- The already-branded gate of `cast_excruciating_wounds`: with a pain weapon wielded and
no pain duration running, the cast aborts at that gate or at an earlier one. -/
theorem pain_already (you : player) (w : Nat) (power : Int) (fail yes : Bool)
    (rnd : Nat → Nat)
    (hw : you.equip_weapon = some w)
    (hb : get_weapon_brand (you.inv w) = SPWPN_PAIN)
    (hd : you.duration DUR_EXCRUCIATING_WOUNDS = 0) :
    ∃ you', cast_excruciating_wounds you power fail yes rnd = some (spret.abort, you') := by
  unfold cast_excruciating_wounds
  by_cases c1 : you.duration DUR_ELEMENTAL_WEAPON ≠ 0 ∨ you.duration DUR_POISON_WEAPON ≠ 0
  · rw [if_pos c1]; exact ⟨_, rfl⟩
  rw [if_neg c1, hw]
  simp only []
  by_cases c2 : is_range_weapon (you.inv w) = true
  · rw [if_pos c2]; exact ⟨_, rfl⟩
  rw [if_neg c2, if_pos (by simp [hb, hd])]
  exact ⟨_, rfl⟩

/-- The artefact gate of `poison_brand_weapon`: with an artefact wielded the cast aborts at
that gate or at an earlier one. -/
theorem poison_artefact (you : player) (w : Nat) (power : Int) (fail yes : Bool)
    (rnd : Nat → Nat)
    (hw : you.equip_weapon = some w)
    (ha : is_artefact (you.inv w) = true) :
    (poison_brand_weapon you power fail yes rnd).1 = spret.abort := by
  unfold poison_brand_weapon
  by_cases c1 : you.duration DUR_ELEMENTAL_WEAPON ≠ 0 ∨ you.duration DUR_EXCRUCIATING_WOUNDS ≠ 0
  · rw [if_pos c1]
  rw [if_neg c1, hw]
  simp only []
  by_cases c2 : (you.inv w).base_type ≠ OBJ_WEAPONS
  · rw [if_pos c2]
  rw [if_neg c2]
  by_cases c3 : decide (you.duration DUR_POISON_WEAPON ≠ 0) = false
      ∧ get_weapon_brand (you.inv w) = SPWPN_VENOM
  · rw [if_pos c3]
  rw [if_neg c3]
  by_cases c4 : (you.inv w).sub_type = WPN_BLOWGUN
  · rw [if_pos c4]
  rw [if_neg c4, if_pos ha]

/-- An aborted `poison_brand_weapon` leaves the state unchanged. -/
theorem poison_abort_unchanged (you : player) (power : Int) (fail yes : Bool)
    (rnd : Nat → Nat)
    (h : (poison_brand_weapon you power fail yes rnd).1 = spret.abort) :
    unchanged you (poison_brand_weapon you power fail yes rnd).2 := by
  rcases hres : poison_brand_weapon you power fail yes rnd with ⟨r, t⟩
  rw [hres] at h
  simp only at h
  subst h
  exact poison_frame you t power fail yes rnd spret.abort hres (by decide)

/-- What a successful cast of either kind does, stated once for both kinds. -/
theorem cast_success (K : brand_kind) (you you' : player) (power : Int) (fail yes : Bool)
    (rnd : Nat → Nat) (h : cast K you power fail yes rnd = some (spret.success, you')) :
    ∃ w, you.equip_weapon = some w
      ∧ you.duration K.other_dur = 0
      ∧ you'.equip_weapon = some w
      ∧ you'.duration K.other_dur = 0
      ∧ you'.duration K.dur = you.duration K.dur + (8 + roll_dice 2 power rnd)
      ∧ (you.duration K.dur = 0 →
          you'.props = some (get_weapon_brand (you.inv w))
          ∧ you'.inv w = set_item_ego_type (you.inv w) OBJ_WEAPONS K.tag
          ∧ you'.duration DUR_SPWPN_PROTECTION = 0)
      ∧ (you.duration K.dur ≠ 0 →
          you'.props = you.props ∧ you'.inv = you.inv
          ∧ you'.duration DUR_SPWPN_PROTECTION = you.duration DUR_SPWPN_PROTECTION) := by
  cases K with
  | poison =>
    simp only [cast, Option.some.injEq] at h
    obtain ⟨w, h1, h2, h3, h4, h5, -, -, h6, h7⟩ :=
      poison_success you you' power fail yes rnd h
    exact ⟨w, h1, h2, h3, h4, h5,
      fun hz => ⟨(h6 hz).1, (h6 hz).2.1, (h6 hz).2.2.2⟩, h7⟩
  | pain =>
    simp only [cast] at h
    obtain ⟨w, h1, h2, h3, h4, h5, -, -, h6, h7⟩ :=
      pain_success you you' power fail yes rnd h
    exact ⟨w, h1, h2, h3, h4, h5, h6, h7⟩

/-- While a brand of kind `K` is running on the wielded weapon `w` with the brand `b`
saved, further successful casts of `K` keep the weapon wielded, the saved brand, a
positive duration and every item. -/
theorem recast_keeps (K : brand_kind) (s t : player) (w : Nat) (b : brand_type)
    (hre : Recast K s t)
    (hw : s.equip_weapon = some w) (hb : s.props = some b) (hd : 0 < s.duration K.dur) :
    t.equip_weapon = some w ∧ t.props = some b ∧ 0 < t.duration K.dur
    ∧ t.inv = s.inv := by
  induction hre with
  | done => exact ⟨hw, hb, hd, rfl⟩
  | again t u power fail yes rnd _ hcast ih =>
    obtain ⟨hw1, hb1, hd1, hi1⟩ := ih
    obtain ⟨w1, h1, -, h3, -, h5, -, h7⟩ := cast_success K t u power fail yes rnd hcast
    have hroll := roll_dice_nonneg 2 power rnd
    rw [hw1] at h1
    cases h1
    refine ⟨h3, ?_, by rw [h5]; omega, ?_⟩
    · rw [(h7 (ne_of_gt hd1)).1]
      exact hb1
    · rw [(h7 (ne_of_gt hd1)).2.1]
      exact hi1

/-! ## The claims -/

/-- C1 (round-trip law). A weapon `w` with brand `b` is wielded; a brand of kind `K` is
applied successfully from a state where the duration of `K` is zero and then re-cast
successfully any number of times; `end_weapon_brand` on `w` then returns and leaves `w` with
the brand `b`. -/
theorem round_trip (K : brand_kind) (you s1 s2 : player) (w : Nat) (b : brand_type)
    (power : Int) (fail yes verbose : Bool) (rnd : Nat → Nat)
    (hw : you.equip_weapon = some w) (hb : get_weapon_brand (you.inv w) = b)
    (h0 : you.duration K.dur = 0)
    (hcast : cast K you power fail yes rnd = some (spret.success, s1))
    (hre : Recast K s1 s2) :
    ∃ s3, end_weapon_brand s2 w verbose = some s3 ∧ get_weapon_brand (s3.inv w) = b := by
  obtain ⟨w1, h1, -, h3, -, h5, h6, -⟩ := cast_success K you s1 power fail yes rnd hcast
  rw [hw] at h1
  cases h1
  have hroll := roll_dice_nonneg 2 power rnd
  have hpos : 0 < s1.duration K.dur := by rw [h5, h0]; omega
  have hprops : s1.props = some b := by rw [(h6 h0).1, hb]
  obtain ⟨-, hb2, hd2, hinv⟩ := recast_keeps K s1 s2 w b hre h3 hprops hpos
  have hassert : s2.duration DUR_EXCRUCIATING_WOUNDS ≠ 0 ∨ s2.duration DUR_POISON_WEAPON ≠ 0 := by
    cases K with
    | poison => exact Or.inr (ne_of_gt hd2)
    | pain => exact Or.inl (ne_of_gt hd2)
  obtain ⟨s3, hs3, -, -, -, hitem⟩ := end_weapon_brand_some s2 w verbose hassert
  refine ⟨s3, hs3, ?_⟩
  have hsaved : original_brand s2 = get_weapon_brand (you.inv w) := by
    rw [original_brand, hb2, hb]
    rfl
  rw [hitem, hinv, (h6 h0).2.1, hsaved, set_item_ego_type_restore, hb]

/-- Witness of C1: venom is cast on the fire weapon of `fresh`, re-cast once, and expired;
the weapon carries fire again. -/
theorem round_trip_witness :
    ∃ s3, end_weapon_brand
        (poison_brand_weapon (poison_brand_weapon fresh 10 false false threes).2
          7 false false threes).2 0 true = some s3
      ∧ get_weapon_brand (s3.inv 0) = SPWPN_FLAMING :=
  round_trip brand_kind.poison fresh (poison_brand_weapon fresh 10 false false threes).2
    (poison_brand_weapon (poison_brand_weapon fresh 10 false false threes).2
      7 false false threes).2
    0 SPWPN_FLAMING 10 false false true threes rfl rfl rfl rfl
    (Recast.again _ _ _ 7 false false threes (Recast.done _) rfl)

/-- C2 (mutual exclusion). From a state with both brand durations at zero, every state
reached by calls of `poison_brand_weapon`, `cast_excruciating_wounds` and
`end_weapon_brand` has at most one of the two durations nonzero. -/
theorem mutual_exclusion (init s : player)
    (hp : init.duration DUR_POISON_WEAPON = 0)
    (he : init.duration DUR_EXCRUCIATING_WOUNDS = 0)
    (hr : Reachable init s) :
    ¬ (s.duration DUR_POISON_WEAPON ≠ 0 ∧ s.duration DUR_EXCRUCIATING_WOUNDS ≠ 0) := by
  have key : s.duration DUR_POISON_WEAPON = 0 ∨ s.duration DUR_EXCRUCIATING_WOUNDS = 0 := by
    induction hr with
    | start => exact (And.intro hp he).elim (fun h _ => Or.inl h)
    | next s t _ hst ih => exact step_exclusive s t hst ih
  rintro ⟨h1, h2⟩
  rcases key with h | h
  · exact h1 h
  · exact h2 h

/-- Witness of C2: the state after one venom cast on `fresh`. -/
theorem mutual_exclusion_witness :
    ¬ ((poison_brand_weapon fresh 10 false false threes).2.duration DUR_POISON_WEAPON ≠ 0
      ∧ (poison_brand_weapon fresh 10 false false threes).2.duration
          DUR_EXCRUCIATING_WOUNDS ≠ 0) :=
  mutual_exclusion fresh (poison_brand_weapon fresh 10 false false threes).2 rfl rfl
    (Reachable.next _ _ Reachable.start (Step.poison fresh 10 false false threes))

/-- C3 (saved-brand register). From a state with both brand durations at zero and
`ORIGINAL_BRAND_KEY` absent, in every state reached by calls of the three operations the
key is present if and only if exactly one of the two durations is nonzero. -/
theorem saved_brand_register (init s : player)
    (hp : init.duration DUR_POISON_WEAPON = 0)
    (he : init.duration DUR_EXCRUCIATING_WOUNDS = 0)
    (hk : init.props = none)
    (hr : Reachable init s) :
    s.props.isSome = true ↔
      (s.duration DUR_POISON_WEAPON ≠ 0 ∧ s.duration DUR_EXCRUCIATING_WOUNDS = 0)
      ∨ (s.duration DUR_POISON_WEAPON = 0 ∧ s.duration DUR_EXCRUCIATING_WOUNDS ≠ 0) := by
  have key : 0 ≤ s.duration DUR_POISON_WEAPON ∧ 0 ≤ s.duration DUR_EXCRUCIATING_WOUNDS
      ∧ (s.props.isSome = true ↔
        (s.duration DUR_POISON_WEAPON ≠ 0 ∧ s.duration DUR_EXCRUCIATING_WOUNDS = 0)
        ∨ (s.duration DUR_POISON_WEAPON = 0 ∧ s.duration DUR_EXCRUCIATING_WOUNDS ≠ 0)) := by
    induction hr with
    | start => simp [hp, he, hk]
    | next s t _ hst ih => exact step_register s t hst ih.1 ih.2.1 ih.2.2
  exact key.2.2

/-- Witness of C3: the state after one venom cast on `fresh`. -/
theorem saved_brand_register_witness :
    (poison_brand_weapon fresh 10 false false threes).2.props.isSome = true ↔
      ((poison_brand_weapon fresh 10 false false threes).2.duration DUR_POISON_WEAPON ≠ 0
        ∧ (poison_brand_weapon fresh 10 false false threes).2.duration
            DUR_EXCRUCIATING_WOUNDS = 0)
      ∨ ((poison_brand_weapon fresh 10 false false threes).2.duration DUR_POISON_WEAPON = 0
        ∧ (poison_brand_weapon fresh 10 false false threes).2.duration
            DUR_EXCRUCIATING_WOUNDS ≠ 0) :=
  saved_brand_register fresh (poison_brand_weapon fresh 10 false false threes).2 rfl rfl rfl
    (Reachable.next _ _ Reachable.start (Step.poison fresh 10 false false threes))

/-- C4 (conflict refusal). `poison_brand_weapon` called while `DUR_EXCRUCIATING_WOUNDS` is
nonzero, and `cast_excruciating_wounds` called while `DUR_POISON_WEAPON` is nonzero, return
`spret::abort` and leave every item (so the weapon's brand) and every duration counter as
they were, whatever the weapon, the power and the fail flag. -/
theorem conflict_refusal (you : player) (power : Int) (fail yes : Bool) (rnd : Nat → Nat) :
    (you.duration DUR_EXCRUCIATING_WOUNDS ≠ 0 →
      (poison_brand_weapon you power fail yes rnd).1 = spret.abort
      ∧ unchanged you (poison_brand_weapon you power fail yes rnd).2)
    ∧ (you.duration DUR_POISON_WEAPON ≠ 0 →
      ∃ you', cast_excruciating_wounds you power fail yes rnd = some (spret.abort, you')
        ∧ unchanged you you') := by
  constructor
  · intro h
    rw [poison_conflict you power fail yes rnd (Or.inr h)]
    exact ⟨rfl, by simp [unchanged, mpr]⟩
  · intro h
    rw [pain_conflict you power fail yes rnd (Or.inr h)]
    exact ⟨_, rfl, by simp [unchanged, mpr]⟩

/-- Witness of C4: venom is refused on `pained`, pain is refused on `poisoned`. -/
theorem conflict_refusal_witness :
    ((poison_brand_weapon pained 10 false true threes).1 = spret.abort
      ∧ unchanged pained (poison_brand_weapon pained 10 false true threes).2)
    ∧ (∃ you', cast_excruciating_wounds poisoned 10 false true threes
          = some (spret.abort, you')
        ∧ unchanged poisoned you') :=
  ⟨(conflict_refusal pained 10 false true threes).1 (by decide),
   (conflict_refusal poisoned 10 false true threes).2 (by decide)⟩

/-- C5 (idempotent capture on re-cast). A cast of kind `K` that succeeds while the duration
of `K` is already nonzero makes that duration strictly greater and leaves
`ORIGINAL_BRAND_KEY`, every item (so the weapon's brand) and `DUR_SPWPN_PROTECTION` as they
were. -/
theorem recast_extends (K : brand_kind) (you you' : player) (power : Int) (fail yes : Bool)
    (rnd : Nat → Nat)
    (hd : you.duration K.dur ≠ 0)
    (h : cast K you power fail yes rnd = some (spret.success, you')) :
    you.duration K.dur < you'.duration K.dur
    ∧ you'.props = you.props
    ∧ you'.inv = you.inv
    ∧ you'.duration DUR_SPWPN_PROTECTION = you.duration DUR_SPWPN_PROTECTION := by
  obtain ⟨w, -, -, -, -, h5, -, h7⟩ := cast_success K you you' power fail yes rnd h
  have hroll := roll_dice_nonneg 2 power rnd
  exact ⟨by rw [h5]; omega, h7 hd⟩

/-- Witness of C5: venom re-cast on `poisoned`, whose venom duration is 20. -/
theorem recast_extends_witness :
    (poisoned.duration DUR_POISON_WEAPON
        < (poison_brand_weapon poisoned 10 false true threes).2.duration DUR_POISON_WEAPON
      ∧ (poison_brand_weapon poisoned 10 false true threes).2.props = poisoned.props
      ∧ (poison_brand_weapon poisoned 10 false true threes).2.inv = poisoned.inv
      ∧ (poison_brand_weapon poisoned 10 false true threes).2.duration DUR_SPWPN_PROTECTION
          = poisoned.duration DUR_SPWPN_PROTECTION) :=
  recast_extends brand_kind.poison poisoned
    (poison_brand_weapon poisoned 10 false true threes).2 10 false true threes
    (by decide) rfl

/-- C6 (expiry post-state). Whenever at least one of `DUR_POISON_WEAPON` and
`DUR_EXCRUCIATING_WOUNDS` is nonzero, `end_weapon_brand` returns, for either value of
`verbose`, with both counters at zero and `ORIGINAL_BRAND_KEY` absent. -/
theorem expiry_post_state (you : player) (weapon : Nat) (verbose : Bool)
    (h : you.duration DUR_POISON_WEAPON ≠ 0 ∨ you.duration DUR_EXCRUCIATING_WOUNDS ≠ 0) :
    ∃ you', end_weapon_brand you weapon verbose = some you'
      ∧ you'.duration DUR_POISON_WEAPON = 0
      ∧ you'.duration DUR_EXCRUCIATING_WOUNDS = 0
      ∧ you'.props = none := by
  obtain ⟨you', h0, h1, h2, h3, -⟩ := end_weapon_brand_some you weapon verbose h.symm
  exact ⟨you', h0, h1, h2, h3⟩

/-- Witness of C6: expiry of the pain brand of `pained`, with a message. -/
theorem expiry_post_state_witness :
    ∃ you', end_weapon_brand pained 0 true = some you'
      ∧ you'.duration DUR_POISON_WEAPON = 0
      ∧ you'.duration DUR_EXCRUCIATING_WOUNDS = 0
      ∧ you'.props = none :=
  expiry_post_state pained 0 true (Or.inr (by decide))

/-- C7 (declined confirmation). The wielded weapon carries `SPWPN_DISTORTION`, the player
lacks the `safe_distortion` passive, and every earlier check of the gate passes, so the
prompt is shown; when `yesno` answers no, either cast returns `spret::abort`, and the items,
the durations, `ORIGINAL_BRAND_KEY` and the logs of dice rolls and miscasts are those of the
state before the cast. -/
theorem declined_prompt_noop (you : player) (w : Nat) (power : Int) (fail : Bool)
    (rnd : Nat → Nat)
    (hw : you.equip_weapon = some w)
    (hb : get_weapon_brand (you.inv w) = SPWPN_DISTORTION)
    (hs : you.safe_distortion = false)
    (h1 : you.duration DUR_ELEMENTAL_WEAPON = 0) :
    (you.duration DUR_EXCRUCIATING_WOUNDS = 0 → (you.inv w).base_type = OBJ_WEAPONS →
      (you.inv w).sub_type ≠ WPN_BLOWGUN → is_artefact (you.inv w) = false →
      (poison_brand_weapon you power fail false rnd).1 = spret.abort
      ∧ unchanged you (poison_brand_weapon you power fail false rnd).2)
    ∧ (you.duration DUR_POISON_WEAPON = 0 → is_range_weapon (you.inv w) = false →
      ∃ you', cast_excruciating_wounds you power fail false rnd = some (spret.abort, you')
        ∧ unchanged you you') := by
  constructor
  · intro h2 hbase hsub hart
    rw [poison_declined you w power fail rnd h1 h2 hw hbase hsub hart hb hs]
    exact ⟨rfl, by simp [unchanged, mpr, yesno_asked]⟩
  · intro h2 hr
    rw [pain_declined you w power fail rnd h1 h2 hw hr hb hs]
    exact ⟨_, rfl, by simp [unchanged, mpr, yesno_asked]⟩

/-- Witness of C7: both casts declined on `distortion_wielder`. -/
theorem declined_prompt_noop_witness :
    ((poison_brand_weapon distortion_wielder 10 false false threes).1 = spret.abort
      ∧ unchanged distortion_wielder
          (poison_brand_weapon distortion_wielder 10 false false threes).2)
    ∧ (∃ you', cast_excruciating_wounds distortion_wielder 10 false false threes
          = some (spret.abort, you')
        ∧ unchanged distortion_wielder you') :=
  ⟨(declined_prompt_noop distortion_wielder 0 10 false threes rfl rfl rfl rfl).1
      rfl rfl (by decide) rfl,
   (declined_prompt_noop distortion_wielder 0 10 false threes rfl rfl rfl rfl).2 rfl rfl⟩

/-- C8 (first poison application). A non-artefact, non-blowgun item of class `OBJ_WEAPONS`
with a brand `b` other than venom is wielded, `DUR_ELEMENTAL_WEAPON`,
`DUR_EXCRUCIATING_WOUNDS` and `DUR_POISON_WEAPON` are zero, and the prompt, if shown, is
confirmed; then `poison_brand_weapon(power, false)` returns `spret::success`, saves `b`
under `ORIGINAL_BRAND_KEY`, puts `SPWPN_VENOM` on the weapon and registers
`DUR_POISON_WEAPON` with the amount `8 + roll_dice(2, power)` and the parameter 100. -/
theorem first_poison_application (you : player) (w : Nat) (b : brand_type) (power : Int)
    (yes : Bool) (rnd : Nat → Nat)
    (hw : you.equip_weapon = some w)
    (hbase : (you.inv w).base_type = OBJ_WEAPONS)
    (hart : is_artefact (you.inv w) = false)
    (hsub : (you.inv w).sub_type ≠ WPN_BLOWGUN)
    (hb : get_weapon_brand (you.inv w) = b)
    (hv : b ≠ SPWPN_VENOM)
    (h1 : you.duration DUR_ELEMENTAL_WEAPON = 0)
    (h2 : you.duration DUR_EXCRUCIATING_WOUNDS = 0)
    (h3 : you.duration DUR_POISON_WEAPON = 0)
    (hyes : b = SPWPN_DISTORTION → you.safe_distortion = false → yes = true) :
    (poison_brand_weapon you power false yes rnd).1 = spret.success
    ∧ (poison_brand_weapon you power false yes rnd).2.props = some b
    ∧ get_weapon_brand ((poison_brand_weapon you power false yes rnd).2.inv w) = SPWPN_VENOM
    ∧ (poison_brand_weapon you power false yes rnd).2.duration DUR_POISON_WEAPON
        = 8 + roll_dice 2 power rnd
    ∧ (poison_brand_weapon you power false yes rnd).2.decay DUR_POISON_WEAPON = 100 := by
  have hret := poison_gate_passed you w power false yes rnd h1 h2 hw hbase hsub hart
    (fun _ => hb ▸ hv) (fun hd => hyes (hb ▸ hd))
  rcases hres : poison_brand_weapon you power false yes rnd with ⟨r, t⟩
  rw [hres] at hret
  simp only [Bool.false_eq_true, if_false] at hret
  subst hret
  obtain ⟨w1, hw1, -, -, -, h5, h6, -, h7, -⟩ :=
    poison_success you t power false yes rnd hres
  rw [hw] at hw1
  cases hw1
  obtain ⟨h8, -, h9, -⟩ := h7 h3
  refine ⟨rfl, by rw [h8, hb], h9, ?_, h6⟩
  rw [h5, h3, zero_add]

/-- Witness of C8: the fire weapon of `fresh`, power 10. -/
theorem first_poison_application_witness :
    (poison_brand_weapon fresh 10 false false threes).1 = spret.success
    ∧ (poison_brand_weapon fresh 10 false false threes).2.props = some SPWPN_FLAMING
    ∧ get_weapon_brand ((poison_brand_weapon fresh 10 false false threes).2.inv 0)
        = SPWPN_VENOM
    ∧ (poison_brand_weapon fresh 10 false false threes).2.duration DUR_POISON_WEAPON
        = 8 + roll_dice 2 10 threes
    ∧ (poison_brand_weapon fresh 10 false false threes).2.decay DUR_POISON_WEAPON = 100 :=
  first_poison_application fresh 0 SPWPN_FLAMING 10 false threes rfl rfl rfl (by decide)
    rfl (by decide) rfl rfl rfl (fun h => absurd h (by decide))

/-- C9 (already-branded refusal). If the wielded weapon already carries the tag of the
kind (`SPWPN_VENOM` for `poison_brand_weapon`, `SPWPN_PAIN` for
`cast_excruciating_wounds`) and the duration of the kind is zero, the cast returns
`spret::abort` and changes neither items, durations nor `ORIGINAL_BRAND_KEY`, for every
power and fail flag. -/
theorem already_branded_refusal (you : player) (w : Nat) (power : Int) (fail yes : Bool)
    (rnd : Nat → Nat)
    (hw : you.equip_weapon = some w) :
    (get_weapon_brand (you.inv w) = SPWPN_VENOM → you.duration DUR_POISON_WEAPON = 0 →
      (poison_brand_weapon you power fail yes rnd).1 = spret.abort
      ∧ unchanged you (poison_brand_weapon you power fail yes rnd).2)
    ∧ (get_weapon_brand (you.inv w) = SPWPN_PAIN →
      you.duration DUR_EXCRUCIATING_WOUNDS = 0 →
      ∃ you', cast_excruciating_wounds you power fail yes rnd = some (spret.abort, you')
        ∧ unchanged you you') := by
  constructor
  · intro hb hd
    have habort := poison_already you w power fail yes rnd hw hb hd
    exact ⟨habort, poison_abort_unchanged you power fail yes rnd habort⟩
  · intro hb hd
    obtain ⟨you', h⟩ := pain_already you w power fail yes rnd hw hb hd
    exact ⟨you', h, pain_frame you you' power fail yes rnd spret.abort h (by decide)⟩

/-- Witness of C9: venom on a venom weapon and pain on a pain weapon, no duration
running. -/
theorem already_branded_refusal_witness :
    ((poison_brand_weapon (wielding SPWPN_VENOM) 10 false true threes).1 = spret.abort
      ∧ unchanged (wielding SPWPN_VENOM)
          (poison_brand_weapon (wielding SPWPN_VENOM) 10 false true threes).2)
    ∧ (∃ you', cast_excruciating_wounds (wielding SPWPN_PAIN) 10 false true threes
          = some (spret.abort, you')
        ∧ unchanged (wielding SPWPN_PAIN) you') :=
  ⟨(already_branded_refusal (wielding SPWPN_VENOM) 0 10 false true threes rfl).1 rfl rfl,
   (already_branded_refusal (wielding SPWPN_PAIN) 0 10 false true threes rfl).2 rfl rfl⟩

/-- With an artefact wielded, `poison_brand_weapon` returns `spret::abort` and changes
neither items, durations nor `ORIGINAL_BRAND_KEY`: the artefact gate of the venom spell. -/
theorem artefact_gate_poison (you : player) (w : Nat) (power : Int) (fail yes : Bool)
    (rnd : Nat → Nat)
    (hw : you.equip_weapon = some w)
    (ha : is_artefact (you.inv w) = true) :
    (poison_brand_weapon you power fail yes rnd).1 = spret.abort
    ∧ unchanged you (poison_brand_weapon you power fail yes rnd).2 :=
  ⟨poison_artefact you w power fail yes rnd hw ha,
   poison_abort_unchanged you power fail yes rnd
     (poison_artefact you w power fail yes rnd hw ha)⟩

/-- C10 (artefact gate), the code at the failing input: `cast_excruciating_wounds` has no
artefact check; cast on the wielded artefact of `artefact_wielder` it returns
`spret::success`, starts `DUR_EXCRUCIATING_WOUNDS` and fills `ORIGINAL_BRAND_KEY`. -/
theorem artefact_gate_missing_in_pain :
    artefact_wielder.equip_weapon = some 0
    ∧ is_artefact (artefact_wielder.inv 0) = true
    ∧ ∃ you', cast_excruciating_wounds artefact_wielder 10 false false threes
          = some (spret.success, you')
        ∧ you'.duration DUR_EXCRUCIATING_WOUNDS = 16
        ∧ you'.props = some SPWPN_FLAMING := by
  refine ⟨rfl, rfl, _, rfl, ?_, ?_⟩
  · decide
  · rfl


/-! ## Further lemmas on the casts: logs and bookkeeping -/

/-- The logs and flags after a successful `poison_brand_weapon`. -/
theorem poison_effects (you you' : player) (power : Int) (fail yes : Bool) (rnd : Nat → Nat)
    (h : poison_brand_weapon you power fail yes rnd = (spret.success, you')) :
    ∃ w, you.equip_weapon = some w
      ∧ you'.miscasts
          = (if get_weapon_brand (you.inv w) = SPWPN_DISTORTION ∧ you.safe_distortion = false
             then you.miscasts ++ [⟨spschool.translocation, 9, 90, "rebranding a weapon of distortion"⟩]
             else you.miscasts)
      ∧ you'.prompts
          = (if get_weapon_brand (you.inv w) = SPWPN_DISTORTION ∧ you.safe_distortion = false
             then you.prompts + 1 else you.prompts)
      ∧ (you.duration DUR_POISON_WEAPON = 0 →
          you'.wield_change = true
          ∧ you'.duration DUR_SPWPN_PROTECTION = 0
          ∧ you'.redraw_armour_class
              = (if you.duration DUR_SPWPN_PROTECTION ≠ 0 then true
                 else you.redraw_armour_class)
          ∧ you'.calc_mp_calls
              = (if get_weapon_brand (you.inv w) = SPWPN_ANTIMAGIC then you.calc_mp_calls + 1
                 else you.calc_mp_calls))
      ∧ (you.duration DUR_POISON_WEAPON ≠ 0 →
          you'.wield_change = you.wield_change
          ∧ you'.redraw_armour_class = you.redraw_armour_class
          ∧ you'.calc_mp_calls = you.calc_mp_calls) := by
  unfold poison_brand_weapon at h
  by_cases c1 : you.duration DUR_ELEMENTAL_WEAPON ≠ 0 ∨ you.duration DUR_EXCRUCIATING_WOUNDS ≠ 0
  · rw [if_pos c1] at h; cases h
  rw [if_neg c1] at h
  cases hw : you.equip_weapon with
  | none => rw [hw] at h; cases h
  | some w =>
    rw [hw] at h
    simp only [] at h
    by_cases c2 : (you.inv w).base_type ≠ OBJ_WEAPONS
    · rw [if_pos c2] at h; cases h
    rw [if_neg c2] at h
    by_cases c3 : decide (you.duration DUR_POISON_WEAPON ≠ 0) = false
        ∧ get_weapon_brand (you.inv w) = SPWPN_VENOM
    · rw [if_pos c3] at h; cases h
    rw [if_neg c3] at h
    by_cases c4 : (you.inv w).sub_type = WPN_BLOWGUN
    · rw [if_pos c4] at h; cases h
    rw [if_neg c4] at h
    by_cases c5 : is_artefact (you.inv w) = true
    · rw [if_pos c5] at h; cases h
    rw [if_neg c5] at h
    by_cases c6 : (decide (get_weapon_brand (you.inv w) = SPWPN_DISTORTION)
        && !you.safe_distortion) = true ∧ yes = false
    · rw [if_pos c6] at h
      cases h
    rw [if_neg c6] at h
    by_cases c7 : fail = true
    · rw [if_pos c7] at h
      cases h
    rw [if_neg c7] at h
    simp only [Prod.mk.injEq, true_and] at h
    subst h
    simp only [get_weapon_brand] at *
    by_cases e : (you.inv w).brand = SPWPN_DISTORTION <;>
    by_cases sd : you.safe_distortion = true <;>
    by_cases t : you.duration DUR_POISON_WEAPON = 0 <;>
    by_cases p : you.duration DUR_SPWPN_PROTECTION = 0 <;>
    by_cases a : (you.inv w).brand = SPWPN_ANTIMAGIC <;>
    simp [e, sd, t, p, a, hw, mpr, yesno_asked, MiscastEffect, increase_duration, dice_rolled, noisy,
          calc_mp, props_set, item_ego_set, wield_change_set, redraw_armour_class_set,
          duration_set, set_item_ego_type, Function.update_apply]

/-- The logs and flags after a successful `cast_excruciating_wounds`. -/
theorem pain_effects (you you' : player) (power : Int) (fail yes : Bool) (rnd : Nat → Nat)
    (h : cast_excruciating_wounds you power fail yes rnd = some (spret.success, you')) :
    ∃ w, you.equip_weapon = some w
      ∧ you'.miscasts
          = (if get_weapon_brand (you.inv w) = SPWPN_DISTORTION ∧ you.safe_distortion = false
             then you.miscasts ++ [⟨spschool.translocation, 9, 90, "rebranding a weapon of distortion"⟩]
             else you.miscasts)
      ∧ you'.prompts
          = (if get_weapon_brand (you.inv w) = SPWPN_DISTORTION ∧ you.safe_distortion = false
             then you.prompts + 1 else you.prompts)
      ∧ (you.duration DUR_EXCRUCIATING_WOUNDS = 0 →
          you'.wield_change = true
          ∧ you'.duration DUR_SPWPN_PROTECTION = 0
          ∧ you'.redraw_armour_class
              = (if you.duration DUR_SPWPN_PROTECTION ≠ 0 then true
                 else you.redraw_armour_class)
          ∧ you'.calc_mp_calls
              = (if get_weapon_brand (you.inv w) = SPWPN_ANTIMAGIC then you.calc_mp_calls + 1
                 else you.calc_mp_calls))
      ∧ (you.duration DUR_EXCRUCIATING_WOUNDS ≠ 0 →
          you'.wield_change = you.wield_change
          ∧ you'.redraw_armour_class = you.redraw_armour_class
          ∧ you'.calc_mp_calls = you.calc_mp_calls) := by
  unfold cast_excruciating_wounds at h
  by_cases c1 : you.duration DUR_ELEMENTAL_WEAPON ≠ 0 ∨ you.duration DUR_POISON_WEAPON ≠ 0
  · rw [if_pos c1] at h; simp only [Option.some.injEq] at h; cases h
  rw [if_neg c1] at h
  cases hw : you.equip_weapon with
  | none => rw [hw] at h; cases h
  | some w =>
    rw [hw] at h
    simp only [] at h
    by_cases c2 : is_range_weapon (you.inv w) = true
    · rw [if_pos c2] at h; simp only [Option.some.injEq] at h; cases h
    rw [if_neg c2] at h
    by_cases c3 : decide (you.duration DUR_EXCRUCIATING_WOUNDS ≠ 0) = false
        ∧ get_weapon_brand (you.inv w) = SPWPN_PAIN
    · rw [if_pos c3] at h; simp only [Option.some.injEq] at h; cases h
    rw [if_neg c3] at h
    by_cases c6 : (decide (get_weapon_brand (you.inv w) = SPWPN_DISTORTION)
        && !you.safe_distortion) = true ∧ yes = false
    · rw [if_pos c6] at h
      simp only [Option.some.injEq] at h; cases h
    rw [if_neg c6] at h
    by_cases c7 : fail = true
    · rw [if_pos c7] at h
      simp only [Option.some.injEq] at h; cases h
    rw [if_neg c7] at h
    simp only [Option.some.injEq] at h; simp only [Prod.mk.injEq, true_and] at h
    subst h
    simp only [get_weapon_brand] at *
    by_cases e : (you.inv w).brand = SPWPN_DISTORTION <;>
    by_cases sd : you.safe_distortion = true <;>
    by_cases t : you.duration DUR_EXCRUCIATING_WOUNDS = 0 <;>
    by_cases p : you.duration DUR_SPWPN_PROTECTION = 0 <;>
    by_cases a : (you.inv w).brand = SPWPN_ANTIMAGIC <;>
    simp [e, sd, t, p, a, hw, mpr, yesno_asked, MiscastEffect, increase_duration, dice_rolled, noisy,
          calc_mp, props_set, item_ego_set, wield_change_set, redraw_armour_class_set,
          duration_set, set_item_ego_type, Function.update_apply]

/-- Without an unprotected distortion brand on the wielded weapon, `poison_brand_weapon`
neither asks nor miscasts, whatever it returns. -/
theorem poison_no_hazard (you you' : player) (power : Int) (fail yes : Bool)
    (rnd : Nat → Nat) (r : spret)
    (h : poison_brand_weapon you power fail yes rnd = (r, you'))
    (hsafe : ∀ w, you.equip_weapon = some w →
      ¬ (get_weapon_brand (you.inv w) = SPWPN_DISTORTION ∧ you.safe_distortion = false)) :
    you'.prompts = you.prompts ∧ you'.miscasts = you.miscasts := by
  unfold poison_brand_weapon at h
  by_cases c1 : you.duration DUR_ELEMENTAL_WEAPON ≠ 0 ∨ you.duration DUR_EXCRUCIATING_WOUNDS ≠ 0
  · rw [if_pos c1] at h; cases h; simp [mpr]
  rw [if_neg c1] at h
  cases hw : you.equip_weapon with
  | none => rw [hw] at h; cases h; simp [mpr]
  | some w =>
    rw [hw] at h
    simp only [] at h
    by_cases c2 : (you.inv w).base_type ≠ OBJ_WEAPONS
    · rw [if_pos c2] at h; cases h; simp [mpr]
    rw [if_neg c2] at h
    by_cases c3 : decide (you.duration DUR_POISON_WEAPON ≠ 0) = false
        ∧ get_weapon_brand (you.inv w) = SPWPN_VENOM
    · rw [if_pos c3] at h; cases h; simp [mpr]
    rw [if_neg c3] at h
    by_cases c4 : (you.inv w).sub_type = WPN_BLOWGUN
    · rw [if_pos c4] at h; cases h; simp [mpr]
    rw [if_neg c4] at h
    by_cases c5 : is_artefact (you.inv w) = true
    · rw [if_pos c5] at h; cases h; simp [mpr]
    rw [if_neg c5] at h
    by_cases c6 : (decide (get_weapon_brand (you.inv w) = SPWPN_DISTORTION)
        && !you.safe_distortion) = true ∧ yes = false
    · rw [if_pos c6] at h
      exfalso
      have hs := hsafe w hw
      simp only [get_weapon_brand] at *
      by_cases e : (you.inv w).brand = SPWPN_DISTORTION <;> simp_all
    rw [if_neg c6] at h
    by_cases c7 : fail = true
    · rw [if_pos c7] at h
      simp only [Prod.mk.injEq] at h
      obtain ⟨-, rfl⟩ := h
      simp only [get_weapon_brand] at *
      have d : (decide ((you.inv w).brand = SPWPN_DISTORTION) && !you.safe_distortion) = false := by
        have hs := hsafe w hw
        by_cases e : (you.inv w).brand = SPWPN_DISTORTION <;> simp_all
      simp [d]
    rw [if_neg c7] at h
    simp only [Prod.mk.injEq] at h
    obtain ⟨-, rfl⟩ := h
    simp only [get_weapon_brand] at *
    have d : (decide ((you.inv w).brand = SPWPN_DISTORTION) && !you.safe_distortion) = false := by
      have hs := hsafe w hw
      by_cases e : (you.inv w).brand = SPWPN_DISTORTION <;> simp_all
    by_cases t : you.duration DUR_POISON_WEAPON = 0 <;>
    by_cases p : you.duration DUR_SPWPN_PROTECTION = 0 <;>
    by_cases a : (you.inv w).brand = SPWPN_ANTIMAGIC <;>
    simp [d, t, p, a, hw, mpr, yesno_asked, MiscastEffect, increase_duration, dice_rolled, noisy,
          calc_mp, props_set, item_ego_set, wield_change_set, redraw_armour_class_set,
          duration_set, set_item_ego_type, Function.update_apply]

/-- Without an unprotected distortion brand on the wielded weapon,
`cast_excruciating_wounds` neither asks nor miscasts, whatever it returns. -/
theorem pain_no_hazard (you you' : player) (power : Int) (fail yes : Bool)
    (rnd : Nat → Nat) (r : spret)
    (h : cast_excruciating_wounds you power fail yes rnd = some (r, you'))
    (hsafe : ∀ w, you.equip_weapon = some w →
      ¬ (get_weapon_brand (you.inv w) = SPWPN_DISTORTION ∧ you.safe_distortion = false)) :
    you'.prompts = you.prompts ∧ you'.miscasts = you.miscasts := by
  unfold cast_excruciating_wounds at h
  by_cases c1 : you.duration DUR_ELEMENTAL_WEAPON ≠ 0 ∨ you.duration DUR_POISON_WEAPON ≠ 0
  · rw [if_pos c1] at h; simp only [Option.some.injEq] at h; cases h; simp [mpr]
  rw [if_neg c1] at h
  cases hw : you.equip_weapon with
  | none => rw [hw] at h; cases h
  | some w =>
    rw [hw] at h
    simp only [] at h
    by_cases c2 : is_range_weapon (you.inv w) = true
    · rw [if_pos c2] at h; simp only [Option.some.injEq] at h; cases h; simp [mpr]
    rw [if_neg c2] at h
    by_cases c3 : decide (you.duration DUR_EXCRUCIATING_WOUNDS ≠ 0) = false
        ∧ get_weapon_brand (you.inv w) = SPWPN_PAIN
    · rw [if_pos c3] at h; simp only [Option.some.injEq] at h; cases h; simp [mpr]
    rw [if_neg c3] at h
    by_cases c6 : (decide (get_weapon_brand (you.inv w) = SPWPN_DISTORTION)
        && !you.safe_distortion) = true ∧ yes = false
    · rw [if_pos c6] at h
      simp only [Option.some.injEq] at h; exfalso
      have hs := hsafe w hw
      simp only [get_weapon_brand] at *
      by_cases e : (you.inv w).brand = SPWPN_DISTORTION <;> simp_all
    rw [if_neg c6] at h
    by_cases c7 : fail = true
    · rw [if_pos c7] at h
      simp only [Option.some.injEq] at h; simp only [Prod.mk.injEq] at h
      obtain ⟨-, rfl⟩ := h
      simp only [get_weapon_brand] at *
      have d : (decide ((you.inv w).brand = SPWPN_DISTORTION) && !you.safe_distortion) = false := by
        have hs := hsafe w hw
        by_cases e : (you.inv w).brand = SPWPN_DISTORTION <;> simp_all
      simp [d]
    rw [if_neg c7] at h
    simp only [Option.some.injEq] at h; simp only [Prod.mk.injEq] at h
    obtain ⟨-, rfl⟩ := h
    simp only [get_weapon_brand] at *
    have d : (decide ((you.inv w).brand = SPWPN_DISTORTION) && !you.safe_distortion) = false := by
      have hs := hsafe w hw
      by_cases e : (you.inv w).brand = SPWPN_DISTORTION <;> simp_all
    by_cases t : you.duration DUR_EXCRUCIATING_WOUNDS = 0 <;>
    by_cases p : you.duration DUR_SPWPN_PROTECTION = 0 <;>
    by_cases a : (you.inv w).brand = SPWPN_ANTIMAGIC <;>
    simp [d, t, p, a, hw, mpr, yesno_asked, MiscastEffect, increase_duration, dice_rolled, noisy,
          calc_mp, props_set, item_ego_set, wield_change_set, redraw_armour_class_set,
          duration_set, set_item_ego_type, Function.update_apply]


/-- Whether `poison_brand_weapon` aborts is decided before `fail_check()`: either it aborts
for both values of the fail flag, or it returns `spret::fail` or `spret::success`
according to the flag. -/
theorem poison_ret_cases (you : player) (power : Int) (yes : Bool) (rnd : Nat → Nat) :
    (∀ fail, (poison_brand_weapon you power fail yes rnd).1 = spret.abort)
    ∨ (∀ fail, (poison_brand_weapon you power fail yes rnd).1
        = if fail = true then spret.fail else spret.success) := by
  by_cases c1 : you.duration DUR_ELEMENTAL_WEAPON ≠ 0 ∨ you.duration DUR_EXCRUCIATING_WOUNDS ≠ 0
  · left; intro fail; unfold poison_brand_weapon; rw [if_pos c1]
  cases hw : you.equip_weapon with
  | none => left; intro fail; unfold poison_brand_weapon; rw [if_neg c1, hw]
  | some w =>
    by_cases c2 : (you.inv w).base_type ≠ OBJ_WEAPONS
    · left; intro fail; unfold poison_brand_weapon; rw [if_neg c1, hw]; simp only []
      rw [if_pos c2]
    by_cases c3 : decide (you.duration DUR_POISON_WEAPON ≠ 0) = false
        ∧ get_weapon_brand (you.inv w) = SPWPN_VENOM
    · left; intro fail; unfold poison_brand_weapon; rw [if_neg c1, hw]; simp only []
      rw [if_neg c2, if_pos c3]
    by_cases c4 : (you.inv w).sub_type = WPN_BLOWGUN
    · left; intro fail; unfold poison_brand_weapon; rw [if_neg c1, hw]; simp only []
      rw [if_neg c2, if_neg c3, if_pos c4]
    by_cases c5 : is_artefact (you.inv w) = true
    · left; intro fail; unfold poison_brand_weapon; rw [if_neg c1, hw]; simp only []
      rw [if_neg c2, if_neg c3, if_neg c4, if_pos c5]
    by_cases c6 : (decide (get_weapon_brand (you.inv w) = SPWPN_DISTORTION)
        && !you.safe_distortion) = true ∧ yes = false
    · left; intro fail; unfold poison_brand_weapon; rw [if_neg c1, hw]; simp only []
      rw [if_neg c2, if_neg c3, if_neg c4, if_neg c5, if_pos c6]
    right; intro fail; unfold poison_brand_weapon; rw [if_neg c1, hw]; simp only []
    rw [if_neg c2, if_neg c3, if_neg c4, if_neg c5, if_neg c6]
    by_cases hf : fail = true
    · rw [if_pos hf, if_pos hf]
    · rw [if_neg hf, if_neg hf]

/-- Whether `cast_excruciating_wounds` aborts is decided before `fail_check()`: it does not
return at all (null weapon), or aborts, or returns `spret::fail` or `spret::success`
according to the fail flag; which of the three does not depend on the flag. -/
theorem pain_ret_cases (you : player) (power : Int) (yes : Bool) (rnd : Nat → Nat) :
    (∀ fail, cast_excruciating_wounds you power fail yes rnd = none)
    ∨ (∀ fail, ∃ you', cast_excruciating_wounds you power fail yes rnd
        = some (spret.abort, you'))
    ∨ (∀ fail, ∃ you', cast_excruciating_wounds you power fail yes rnd
        = some (if fail = true then spret.fail else spret.success, you')) := by
  by_cases c1 : you.duration DUR_ELEMENTAL_WEAPON ≠ 0 ∨ you.duration DUR_POISON_WEAPON ≠ 0
  · right; left; intro fail; unfold cast_excruciating_wounds; rw [if_pos c1]
    exact ⟨_, rfl⟩
  cases hw : you.equip_weapon with
  | none => left; intro fail; unfold cast_excruciating_wounds; rw [if_neg c1, hw]
  | some w =>
    by_cases c2 : is_range_weapon (you.inv w) = true
    · right; left; intro fail; unfold cast_excruciating_wounds; rw [if_neg c1, hw]
      simp only []
      rw [if_pos c2]
      exact ⟨_, rfl⟩
    by_cases c3 : decide (you.duration DUR_EXCRUCIATING_WOUNDS ≠ 0) = false
        ∧ get_weapon_brand (you.inv w) = SPWPN_PAIN
    · right; left; intro fail; unfold cast_excruciating_wounds; rw [if_neg c1, hw]
      simp only []
      rw [if_neg c2, if_pos c3]
      exact ⟨_, rfl⟩
    by_cases c6 : (decide (get_weapon_brand (you.inv w) = SPWPN_DISTORTION)
        && !you.safe_distortion) = true ∧ yes = false
    · right; left; intro fail; unfold cast_excruciating_wounds; rw [if_neg c1, hw]
      simp only []
      rw [if_neg c2, if_neg c3, if_pos c6]
      exact ⟨_, rfl⟩
    right; right; intro fail; unfold cast_excruciating_wounds; rw [if_neg c1, hw]
    simp only []
    rw [if_neg c2, if_neg c3, if_neg c6]
    by_cases hf : fail = true
    · rw [if_pos hf, if_pos hf]; exact ⟨_, rfl⟩
    · rw [if_neg hf, if_neg hf]; exact ⟨_, rfl⟩

/-- The gate of `cast_excruciating_wounds` is passed: the cast returns `spret::fail` or
`spret::success` according to the fail flag. -/
theorem pain_gate_passed (you : player) (w : Nat) (power : Int) (fail yes : Bool)
    (rnd : Nat → Nat)
    (h1 : you.duration DUR_ELEMENTAL_WEAPON = 0)
    (h2 : you.duration DUR_POISON_WEAPON = 0)
    (hw : you.equip_weapon = some w)
    (hr : is_range_weapon (you.inv w) = false)
    (hb : you.duration DUR_EXCRUCIATING_WOUNDS = 0 →
      get_weapon_brand (you.inv w) ≠ SPWPN_PAIN)
    (hyes : get_weapon_brand (you.inv w) = SPWPN_DISTORTION → you.safe_distortion = false →
      yes = true) :
    ∃ you', cast_excruciating_wounds you power fail yes rnd
      = some (if fail = true then spret.fail else spret.success, you') := by
  unfold cast_excruciating_wounds
  rw [if_neg (by simp [h1, h2]), hw]
  simp only []
  rw [if_neg (by simp [hr]), if_neg (by simpa using hb), if_neg (by simpa using hyes)]
  by_cases hf : fail = true
  · rw [if_pos hf, if_pos hf]; exact ⟨_, rfl⟩
  · rw [if_neg hf, if_neg hf]; exact ⟨_, rfl⟩

/-- The weapon-presence gate of `poison_brand_weapon`: with nothing wielded the cast aborts
at the null check or at the conflict check before it. -/
theorem poison_no_weapon (you : player) (power : Int) (fail yes : Bool) (rnd : Nat → Nat)
    (hw : you.equip_weapon = none) :
    (poison_brand_weapon you power fail yes rnd).1 = spret.abort := by
  unfold poison_brand_weapon
  by_cases c1 : you.duration DUR_ELEMENTAL_WEAPON ≠ 0 ∨ you.duration DUR_EXCRUCIATING_WOUNDS ≠ 0
  · rw [if_pos c1]
  rw [if_neg c1, hw]

/-- The weapon-class gate of `poison_brand_weapon`: with an item of another class than
`OBJ_WEAPONS` wielded the cast aborts at the class check or at the conflict check. -/
theorem poison_not_weapon (you : player) (w : Nat) (power : Int) (fail yes : Bool)
    (rnd : Nat → Nat)
    (hw : you.equip_weapon = some w)
    (hbase : (you.inv w).base_type ≠ OBJ_WEAPONS) :
    (poison_brand_weapon you power fail yes rnd).1 = spret.abort := by
  unfold poison_brand_weapon
  by_cases c1 : you.duration DUR_ELEMENTAL_WEAPON ≠ 0 ∨ you.duration DUR_EXCRUCIATING_WOUNDS ≠ 0
  · rw [if_pos c1]
  rw [if_neg c1, hw]
  simp only []
  rw [if_pos hbase]

/-! ## The claims, continued -/

/-- With nothing wielded, or with a wielded item of another class than `OBJ_WEAPONS`,
`poison_brand_weapon` returns `spret::abort` and changes neither items, durations nor
`ORIGINAL_BRAND_KEY`: the weapon-presence gate of the venom spell. -/
theorem weapon_presence_gate_poison (you : player) (power : Int) (fail yes : Bool)
    (rnd : Nat → Nat)
    (h : you.equip_weapon = none
      ∨ ∃ w, you.equip_weapon = some w ∧ (you.inv w).base_type ≠ OBJ_WEAPONS) :
    (poison_brand_weapon you power fail yes rnd).1 = spret.abort
    ∧ unchanged you (poison_brand_weapon you power fail yes rnd).2 := by
  have habort : (poison_brand_weapon you power fail yes rnd).1 = spret.abort := by
    rcases h with h | ⟨w, hw, hbase⟩
    · exact poison_no_weapon you power fail yes rnd h
    · exact poison_not_weapon you w power fail yes rnd hw hbase
  exact ⟨habort, poison_abort_unchanged you power fail yes rnd habort⟩

/-- C11 (weapon-presence gate), the code at the failing inputs: `cast_excruciating_wounds`
has neither a null check nor a class check. With nothing wielded and no conflicting
duration it dereferences the null `you.weapon()` and has no result; with a wielded item of
another class than `OBJ_WEAPONS` it returns `spret::success` and starts
`DUR_EXCRUCIATING_WOUNDS`. -/
theorem weapon_presence_gate_missing_in_pain :
    unarmed.equip_weapon = none
    ∧ cast_excruciating_wounds unarmed 10 false false threes = none
    ∧ staff_wielder.equip_weapon = some 0
    ∧ (staff_wielder.inv 0).base_type ≠ OBJ_WEAPONS
    ∧ ∃ you', cast_excruciating_wounds staff_wielder 10 false false threes
          = some (spret.success, you')
        ∧ you'.duration DUR_EXCRUCIATING_WOUNDS = 16
        ∧ you'.props = some SPWPN_NORMAL := by
  refine ⟨rfl, rfl, rfl, by decide, _, rfl, ?_, ?_⟩
  · decide
  · rfl

/-- C12 (abort paths). Whenever a cast returns `spret::abort`, the durations, the items (so
the weapon's brand), `ORIGINAL_BRAND_KEY` and the logs of dice rolls and miscasts are those
of the state before; and a cast aborts with the fail flag set exactly when it aborts with
the flag clear, so a request the gate rejects never returns `spret::fail`. -/
theorem abort_paths_side_effect_free (you : player) (power : Int) (fail yes : Bool)
    (rnd : Nat → Nat) :
    ((poison_brand_weapon you power fail yes rnd).1 = spret.abort →
      unchanged you (poison_brand_weapon you power fail yes rnd).2)
    ∧ (∀ you', cast_excruciating_wounds you power fail yes rnd = some (spret.abort, you') →
      unchanged you you')
    ∧ ((poison_brand_weapon you power true yes rnd).1 = spret.abort
      ↔ (poison_brand_weapon you power false yes rnd).1 = spret.abort)
    ∧ ((∃ you', cast_excruciating_wounds you power true yes rnd = some (spret.abort, you'))
      ↔ (∃ you', cast_excruciating_wounds you power false yes rnd
          = some (spret.abort, you'))) := by
  refine ⟨poison_abort_unchanged you power fail yes rnd, ?_, ?_, ?_⟩
  · intro you' h
    exact pain_frame you you' power fail yes rnd spret.abort h (by decide)
  · rcases poison_ret_cases you power yes rnd with h | h
    · simp [h true, h false]
    · simp [h true, h false]
  · rcases pain_ret_cases you power yes rnd with h | h | h
    · simp [h true, h false]
    · exact ⟨fun _ => h false, fun _ => h true⟩
    · obtain ⟨a, ha⟩ := h true
      obtain ⟨b, hb⟩ := h false
      simp [ha, hb]

/-- Witness of C12: venom cast on a venom weapon aborts with the fail flag set, changes
nothing, and aborts as well with the flag clear. -/
theorem abort_paths_side_effect_free_witness :
    unchanged (wielding SPWPN_VENOM)
      (poison_brand_weapon (wielding SPWPN_VENOM) 10 true true threes).2
    ∧ (poison_brand_weapon (wielding SPWPN_VENOM) 10 false true threes).1 = spret.abort :=
  ⟨(abort_paths_side_effect_free (wielding SPWPN_VENOM) 10 true true threes).1 rfl,
   (abort_paths_side_effect_free (wielding SPWPN_VENOM) 10 true true threes).2.2.1.1 rfl⟩

/-- C13 as stated fails: in `both_running` both brand durations are nonzero, and the
assertion of `end_weapon_brand` passes all the same, so "passes if and only if exactly one
is nonzero" is false there. -/
theorem assert_passes_with_both_running :
    ¬ ((end_weapon_brand both_running 0 false).isSome = true ↔
      (both_running.duration DUR_POISON_WEAPON ≠ 0
        ∧ both_running.duration DUR_EXCRUCIATING_WOUNDS = 0)
      ∨ (both_running.duration DUR_POISON_WEAPON = 0
        ∧ both_running.duration DUR_EXCRUCIATING_WOUNDS ≠ 0)) := by
  intro h
  have hsome : (end_weapon_brand both_running 0 false).isSome = true := by
    obtain ⟨u, hu, -⟩ := end_weapon_brand_some both_running 0 false (Or.inl (by decide))
    rw [hu]; rfl
  rcases h.1 hsome with ⟨-, h2⟩ | ⟨h1, -⟩
  · exact absurd h2 (by decide)
  · exact absurd h1 (by decide)

/-- C13 (reversion precondition), amended: the assertion of `end_weapon_brand` passes, and
the call returns, if and only if at least one of `DUR_EXCRUCIATING_WOUNDS` and
`DUR_POISON_WEAPON` is nonzero; it fails exactly when both are zero. -/
theorem assert_passes_iff (you : player) (weapon : Nat) (verbose : Bool) :
    (end_weapon_brand you weapon verbose).isSome = true ↔
      (you.duration DUR_EXCRUCIATING_WOUNDS ≠ 0 ∨ you.duration DUR_POISON_WEAPON ≠ 0) := by
  constructor
  · intro h
    by_contra hc
    rw [end_weapon_brand_none you weapon verbose hc] at h
    exact absurd h (by decide)
  · intro h
    obtain ⟨u, hu, -⟩ := end_weapon_brand_some you weapon verbose h
    rw [hu]; rfl

/-- C14 as stated fails: in `lich_unwielded` the pain brand runs, the item passed is holy
and the form is lich, but the item has just been unwielded; `end_weapon_brand` restores its
brand and does not call `unequip_item`. -/
theorem holy_reversion_after_unwield :
    lich_unwielded.duration DUR_EXCRUCIATING_WOUNDS ≠ 0
    ∧ is_holy_item (lich_unwielded.inv 0) = true
    ∧ lich_unwielded.form = transformation.lich
    ∧ ∃ you', end_weapon_brand lich_unwielded 0 true = some you'
        ∧ get_weapon_brand (you'.inv 0) = SPWPN_FLAMING
        ∧ you'.unequips = lich_unwielded.unequips := by
  refine ⟨by decide, rfl, rfl, _, rfl, ?_, ?_⟩
  · rfl
  · rfl

/-- C14 (holy-item reversion), amended: when `DUR_EXCRUCIATING_WOUNDS` is nonzero, the item
passed to `end_weapon_brand` is holy and the form is lich, the call restores the brand of
the item from `ORIGINAL_BRAND_KEY` (by `set_item_ego_type`, which puts the saved brand on
every item of class `OBJ_WEAPONS` that is not an artefact) and then, if `you.weapon()` is
not null, empties the weapon slot with one `unequip_item(EQ_WEAPON)`; if `you.weapon()` is
null, as after the item has been unwielded, `unequip_item` is not called. -/
theorem holy_reversion (you : player) (weapon : Nat) (verbose : Bool)
    (hd : you.duration DUR_EXCRUCIATING_WOUNDS ≠ 0)
    (hh : is_holy_item (you.inv weapon) = true)
    (hf : you.form = transformation.lich) :
    ∃ you', end_weapon_brand you weapon verbose = some you'
      ∧ you'.inv weapon
          = set_item_ego_type (you.inv weapon) OBJ_WEAPONS (original_brand you)
      ∧ ((you.inv weapon).base_type = OBJ_WEAPONS → is_artefact (you.inv weapon) = false →
          get_weapon_brand (you'.inv weapon) = original_brand you)
      ∧ you'.equip_weapon = none
      ∧ (you.equip_weapon.isSome = true → you'.unequips = you.unequips + 1)
      ∧ (you.equip_weapon = none → you'.unequips = you.unequips) := by
  have hholy : is_holy_item
      (set_item_ego_type (you.inv weapon) OBJ_WEAPONS (original_brand you)) = true := by
    unfold set_item_ego_type
    split_ifs
    · exact hh
    · exact hh
  have hbrand : (you.inv weapon).base_type = OBJ_WEAPONS →
      is_artefact (you.inv weapon) = false →
      get_weapon_brand (set_item_ego_type (you.inv weapon) OBJ_WEAPONS (original_brand you))
        = original_brand you :=
    set_item_ego_type_brand (you.inv weapon) OBJ_WEAPONS (original_brand you)
  unfold end_weapon_brand
  rw [if_pos (Or.inl hd)]
  simp only []
  cases hw : you.equip_weapon with
  | none =>
    split_ifs <;>
      simp_all [mpr, calc_mp, props_erase, item_ego_set, wield_change_set, duration_set,
        unequip_item, Function.update_apply]
  | some w =>
    split_ifs <;>
      simp_all [mpr, calc_mp, props_erase, item_ego_set, wield_change_set, duration_set,
        unequip_item, Function.update_apply]

/-- Witness of C14 amended: the holy weapon of `lich_wielder` is reverted and unequipped. -/
theorem holy_reversion_witness :
    ∃ you', end_weapon_brand lich_wielder 0 true = some you'
      ∧ you'.inv 0
          = set_item_ego_type (lich_wielder.inv 0) OBJ_WEAPONS (original_brand lich_wielder)
      ∧ ((lich_wielder.inv 0).base_type = OBJ_WEAPONS →
          is_artefact (lich_wielder.inv 0) = false →
          get_weapon_brand (you'.inv 0) = original_brand lich_wielder)
      ∧ you'.equip_weapon = none
      ∧ (lich_wielder.equip_weapon.isSome = true →
          you'.unequips = lich_wielder.unequips + 1)
      ∧ (lich_wielder.equip_weapon = none → you'.unequips = lich_wielder.unequips) :=
  holy_reversion lich_wielder 0 true (by decide) rfl rfl

/-- C15 (risk penalty). A cast that succeeds on a weapon carrying `SPWPN_DISTORTION`
without the `safe_distortion` passive (so the prompt was confirmed and the commit step did
not fail) calls `MiscastEffect` exactly once, with the translocation school, the severity
arguments 9 and 90 and the cause "rebranding a weapon of distortion"; a cast that succeeds
on any other weapon, and a cast that returns `spret::abort` or `spret::fail`, does not call
it. -/
theorem risk_penalty (K : brand_kind) (you you' : player) (power : Int) (fail yes : Bool)
    (rnd : Nat → Nat) (r : spret)
    (h : cast K you power fail yes rnd = some (r, you')) :
    (r = spret.success → ∃ w, you.equip_weapon = some w
      ∧ you'.miscasts
          = (if get_weapon_brand (you.inv w) = SPWPN_DISTORTION ∧ you.safe_distortion = false
             then you.miscasts
               ++ [⟨spschool.translocation, 9, 90, "rebranding a weapon of distortion"⟩]
             else you.miscasts))
    ∧ (r ≠ spret.success → you'.miscasts = you.miscasts) := by
  cases K with
  | poison =>
    simp only [cast, Option.some.injEq] at h
    constructor
    · intro hr
      subst hr
      obtain ⟨w, hw, hm, -⟩ := poison_effects you you' power fail yes rnd h
      exact ⟨w, hw, hm⟩
    · intro hr
      exact (poison_frame you you' power fail yes rnd r h hr).2.2.2.2.2.2.2.2.1
  | pain =>
    simp only [cast] at h
    constructor
    · intro hr
      subst hr
      obtain ⟨w, hw, hm, -⟩ := pain_effects you you' power fail yes rnd h
      exact ⟨w, hw, hm⟩
    · intro hr
      exact (pain_frame you you' power fail yes rnd r h hr).2.2.2.2.2.2.2.2.1

/-- Witness of C15: venom cast on the distortion weapon of `distortion_wielder`, prompt
confirmed, for the penalty; the same cast with the fail flag set, for its absence. -/
theorem risk_penalty_witness :
    (∃ w, distortion_wielder.equip_weapon = some w
      ∧ (poison_brand_weapon distortion_wielder 10 false true threes).2.miscasts
          = (if get_weapon_brand (distortion_wielder.inv w) = SPWPN_DISTORTION
                ∧ distortion_wielder.safe_distortion = false
             then distortion_wielder.miscasts
               ++ [⟨spschool.translocation, 9, 90, "rebranding a weapon of distortion"⟩]
             else distortion_wielder.miscasts))
    ∧ (poison_brand_weapon distortion_wielder 10 true true threes).2.miscasts
        = distortion_wielder.miscasts :=
  ⟨(risk_penalty brand_kind.poison distortion_wielder
      (poison_brand_weapon distortion_wielder 10 false true threes).2
      10 false true threes spret.success rfl).1 rfl,
   (risk_penalty brand_kind.poison distortion_wielder
      (poison_brand_weapon distortion_wielder 10 true true threes).2
      10 true true threes spret.fail rfl).2 (by decide)⟩

/-- C16 (commit failure). In a state that passes every check of the gate, with the prompt
confirmed if it is shown, a cast with the fail flag set returns `spret::fail` and leaves the
items (so the weapon's brand), every duration counter, `ORIGINAL_BRAND_KEY` and
`wield_change` as they were. -/
theorem commit_failure_mutates_nothing (you : player) (w : Nat) (power : Int) (yes : Bool)
    (rnd : Nat → Nat)
    (hw : you.equip_weapon = some w)
    (h1 : you.duration DUR_ELEMENTAL_WEAPON = 0)
    (hyes : get_weapon_brand (you.inv w) = SPWPN_DISTORTION → you.safe_distortion = false →
      yes = true) :
    (you.duration DUR_EXCRUCIATING_WOUNDS = 0 → (you.inv w).base_type = OBJ_WEAPONS →
      (you.inv w).sub_type ≠ WPN_BLOWGUN → is_artefact (you.inv w) = false →
      (you.duration DUR_POISON_WEAPON = 0 → get_weapon_brand (you.inv w) ≠ SPWPN_VENOM) →
      (poison_brand_weapon you power true yes rnd).1 = spret.fail
      ∧ unchanged you (poison_brand_weapon you power true yes rnd).2)
    ∧ (you.duration DUR_POISON_WEAPON = 0 → is_range_weapon (you.inv w) = false →
      (you.duration DUR_EXCRUCIATING_WOUNDS = 0 →
        get_weapon_brand (you.inv w) ≠ SPWPN_PAIN) →
      ∃ you', cast_excruciating_wounds you power true yes rnd = some (spret.fail, you')
        ∧ unchanged you you') := by
  constructor
  · intro h2 hbase hsub hart hb
    have hret := poison_gate_passed you w power true yes rnd h1 h2 hw hbase hsub hart hb hyes
    rw [if_pos rfl] at hret
    refine ⟨hret, ?_⟩
    rcases hres : poison_brand_weapon you power true yes rnd with ⟨r, t⟩
    rw [hres] at hret
    simp only at hret
    subst hret
    exact poison_frame you t power true yes rnd spret.fail hres (by decide)
  · intro h2 hr hb
    obtain ⟨you', h⟩ := pain_gate_passed you w power true yes rnd h1 h2 hw hr hb hyes
    rw [if_pos rfl] at h
    exact ⟨you', h, pain_frame you you' power true yes rnd spret.fail h (by decide)⟩

/-- Witness of C16: both casts fail on `fresh` without changing it. -/
theorem commit_failure_mutates_nothing_witness :
    ((poison_brand_weapon fresh 10 true false threes).1 = spret.fail
      ∧ unchanged fresh (poison_brand_weapon fresh 10 true false threes).2)
    ∧ (∃ you', cast_excruciating_wounds fresh 10 true false threes
          = some (spret.fail, you')
        ∧ unchanged fresh you') :=
  ⟨(commit_failure_mutates_nothing fresh 0 10 false threes rfl rfl
      (fun h => absurd h (by decide))).1 rfl rfl (by decide) rfl
      (fun _ => by decide),
   (commit_failure_mutates_nothing fresh 0 10 false threes rfl rfl
      (fun h => absurd h (by decide))).2 rfl rfl (fun _ => by decide)⟩

/-- C17 (confusing touch never shortens). `cast_confusing_touch(power, false)` returns
`spret::success` and leaves `DUR_CONFUSING_TOUCH` at least at its prior value and at least
at the floor `10 + random2(power) / 5`; with the fail flag set it returns `spret::fail` and
leaves the state, so the duration, as it was. -/
theorem confusing_touch_never_shortens (you : player) (power : Int) (rnd : Nat → Nat) :
    (cast_confusing_touch you power false rnd).1 = spret.success
    ∧ you.duration DUR_CONFUSING_TOUCH
        ≤ (cast_confusing_touch you power false rnd).2.duration DUR_CONFUSING_TOUCH
    ∧ 10 + Int.tdiv (random2 power (rnd 0)) 5
        ≤ (cast_confusing_touch you power false rnd).2.duration DUR_CONFUSING_TOUCH
    ∧ (cast_confusing_touch you power true rnd).1 = spret.fail
    ∧ (cast_confusing_touch you power true rnd).2 = you := by
  simp [cast_confusing_touch, set_duration, mpr]

/-- C18 (first-activation bookkeeping). When a cast of kind `K` succeeds from a state with
the duration of `K` at zero, `wield_change` is true afterwards, `DUR_SPWPN_PROTECTION` is
zero afterwards, `redraw_armour_class` is true if `DUR_SPWPN_PROTECTION` was nonzero before
and is as it was otherwise, and `calc_mp` is called once if the brand of the wielded weapon
before the cast was `SPWPN_ANTIMAGIC` and not at all otherwise. -/
theorem first_activation_bookkeeping (K : brand_kind) (you you' : player) (power : Int)
    (fail yes : Bool) (rnd : Nat → Nat)
    (h0 : you.duration K.dur = 0)
    (h : cast K you power fail yes rnd = some (spret.success, you')) :
    ∃ w, you.equip_weapon = some w
      ∧ you'.wield_change = true
      ∧ you'.duration DUR_SPWPN_PROTECTION = 0
      ∧ you'.redraw_armour_class
          = (if you.duration DUR_SPWPN_PROTECTION ≠ 0 then true
             else you.redraw_armour_class)
      ∧ you'.calc_mp_calls
          = (if get_weapon_brand (you.inv w) = SPWPN_ANTIMAGIC then you.calc_mp_calls + 1
             else you.calc_mp_calls) := by
  cases K with
  | poison =>
    simp only [cast, Option.some.injEq] at h
    obtain ⟨w, hw, -, -, hfirst, -⟩ := poison_effects you you' power fail yes rnd h
    exact ⟨w, hw, hfirst h0⟩
  | pain =>
    simp only [cast] at h
    obtain ⟨w, hw, -, -, hfirst, -⟩ := pain_effects you you' power fail yes rnd h
    exact ⟨w, hw, hfirst h0⟩

/-- Witness of C18: the first venom cast on `fresh`. -/
theorem first_activation_bookkeeping_witness :
    ∃ w, fresh.equip_weapon = some w
      ∧ (poison_brand_weapon fresh 10 false false threes).2.wield_change = true
      ∧ (poison_brand_weapon fresh 10 false false threes).2.duration DUR_SPWPN_PROTECTION = 0
      ∧ (poison_brand_weapon fresh 10 false false threes).2.redraw_armour_class
          = (if fresh.duration DUR_SPWPN_PROTECTION ≠ 0 then true
             else fresh.redraw_armour_class)
      ∧ (poison_brand_weapon fresh 10 false false threes).2.calc_mp_calls
          = (if get_weapon_brand (fresh.inv w) = SPWPN_ANTIMAGIC
             then fresh.calc_mp_calls + 1 else fresh.calc_mp_calls) :=
  first_activation_bookkeeping brand_kind.poison fresh
    (poison_brand_weapon fresh 10 false false threes).2 10 false false threes rfl rfl

/-- One step keeps the coupling of brand durations and brand as far as it holds: a running
venom duration means a wielded weapon with the venom brand; a running pain duration means a
wielded item that carries the pain brand if it is of class `OBJ_WEAPONS` and not an
artefact. -/
theorem step_coupling (s t : player) (hst : Step s t)
    (hp : s.duration DUR_POISON_WEAPON ≠ 0 →
      ∃ w, s.equip_weapon = some w ∧ get_weapon_brand (s.inv w) = SPWPN_VENOM)
    (he : s.duration DUR_EXCRUCIATING_WOUNDS ≠ 0 →
      ∃ w, s.equip_weapon = some w
        ∧ ((s.inv w).base_type = OBJ_WEAPONS → is_artefact (s.inv w) = false →
          get_weapon_brand (s.inv w) = SPWPN_PAIN)) :
    (t.duration DUR_POISON_WEAPON ≠ 0 →
      ∃ w, t.equip_weapon = some w ∧ get_weapon_brand (t.inv w) = SPWPN_VENOM)
    ∧ (t.duration DUR_EXCRUCIATING_WOUNDS ≠ 0 →
      ∃ w, t.equip_weapon = some w
        ∧ ((t.inv w).base_type = OBJ_WEAPONS → is_artefact (t.inv w) = false →
          get_weapon_brand (t.inv w) = SPWPN_PAIN)) := by
  cases hst with
  | poison power fail yes rnd =>
    rcases hres : poison_brand_weapon s power fail yes rnd with ⟨r, t⟩
    by_cases hr : r = spret.success
    · subst hr
      obtain ⟨w, hw, -, hw', h4, -, -, -, h6, h7⟩ :=
        poison_success s t power fail yes rnd hres
      refine ⟨fun _ => ⟨w, hw', ?_⟩, fun hne => absurd h4 hne⟩
      by_cases hz : s.duration DUR_POISON_WEAPON = 0
      · exact (h6 hz).2.2.1
      · obtain ⟨w1, hw1, hb1⟩ := hp hz
        rw [hw] at hw1
        cases hw1
        rw [(h7 hz).2.1]
        exact hb1
    · obtain ⟨hinv, hd, -, -, hequip, -⟩ := poison_frame s t power fail yes rnd r hres hr
      simp only [hinv, hd, hequip]
      exact ⟨hp, he⟩
  | pain power fail yes rnd r _ hres =>
    by_cases hr : r = spret.success
    · subst hr
      obtain ⟨w, hw, -, hw', h4, -, -, -, h6, h7⟩ :=
        pain_success s t power fail yes rnd hres
      refine ⟨fun hne => absurd h4 hne, fun _ => ⟨w, hw', ?_⟩⟩
      by_cases hz : s.duration DUR_EXCRUCIATING_WOUNDS = 0
      · rw [(h6 hz).2.1]
        intro hc ha
        unfold set_item_ego_type at hc ha ⊢
        simp only [is_artefact] at ha
        by_cases hb : (s.inv w).base_type = OBJ_WEAPONS ∧ (s.inv w).artefact = false
        · rw [if_pos hb]; rfl
        · rw [if_neg hb] at hc ha
          exact absurd ⟨hc, ha⟩ hb
      · obtain ⟨w1, hw1, hb1⟩ := he hz
        rw [hw] at hw1
        cases hw1
        rw [(h7 hz).2.1]
        exact hb1
    · obtain ⟨hinv, hd, -, -, hequip, -⟩ := pain_frame s t power fail yes rnd r hres hr
      simp only [hinv, hd, hequip]
      exact ⟨hp, he⟩
  | expire weapon verbose _ hres =>
    by_cases c : s.duration DUR_EXCRUCIATING_WOUNDS ≠ 0 ∨ s.duration DUR_POISON_WEAPON ≠ 0
    · obtain ⟨u, hu, h1, h2, -⟩ := end_weapon_brand_some s weapon verbose c
      rw [hu] at hres
      cases hres
      exact ⟨fun hne => absurd h1 hne, fun hne => absurd h2 hne⟩
    · rw [end_weapon_brand_none s weapon verbose c] at hres
      cases hres

/-- The coupling of brand durations and brand as far as it holds. From a state with both
brand durations at zero, in every state reached by calls of the three operations a nonzero
`DUR_POISON_WEAPON` means that a weapon is wielded and carries `SPWPN_VENOM`, and a
nonzero `DUR_EXCRUCIATING_WOUNDS` means that an item is wielded which carries `SPWPN_PAIN`
if it is of class `OBJ_WEAPONS` and not an artefact. -/
theorem coupling_of_brandable_weapons (init s : player)
    (hp : init.duration DUR_POISON_WEAPON = 0)
    (he : init.duration DUR_EXCRUCIATING_WOUNDS = 0)
    (hr : Reachable init s) :
    (s.duration DUR_POISON_WEAPON ≠ 0 →
      ∃ w, s.equip_weapon = some w ∧ get_weapon_brand (s.inv w) = SPWPN_VENOM)
    ∧ (s.duration DUR_EXCRUCIATING_WOUNDS ≠ 0 →
      ∃ w, s.equip_weapon = some w
        ∧ ((s.inv w).base_type = OBJ_WEAPONS → is_artefact (s.inv w) = false →
          get_weapon_brand (s.inv w) = SPWPN_PAIN)) := by
  induction hr with
  | start => exact ⟨fun hne => absurd hp hne, fun hne => absurd he hne⟩
  | next s t _ hst ih => exact step_coupling s t hst ih.1 ih.2

/-- C19 (brand/duration coupling), the code at the failing inputs: `cast_excruciating_wounds`
checks neither the class of the wielded item nor its artefact flag. From `staff_wielder`
and from `artefact_wielder`, both with the two brand durations at zero, one pain cast
reaches a state in which `DUR_EXCRUCIATING_WOUNDS` is nonzero while the wielded item, which
`set_item_ego_type` has left alone, does not carry `SPWPN_PAIN`. -/
theorem coupling_broken_by_pain_cast :
    (staff_wielder.duration DUR_POISON_WEAPON = 0
      ∧ staff_wielder.duration DUR_EXCRUCIATING_WOUNDS = 0
      ∧ ∃ s, Reachable staff_wielder s
        ∧ s.duration DUR_EXCRUCIATING_WOUNDS ≠ 0
        ∧ s.equip_weapon = some 0
        ∧ get_weapon_brand (s.inv 0) ≠ SPWPN_PAIN)
    ∧ (artefact_wielder.duration DUR_POISON_WEAPON = 0
      ∧ artefact_wielder.duration DUR_EXCRUCIATING_WOUNDS = 0
      ∧ ∃ s, Reachable artefact_wielder s
        ∧ s.duration DUR_EXCRUCIATING_WOUNDS ≠ 0
        ∧ s.equip_weapon = some 0
        ∧ get_weapon_brand (s.inv 0) ≠ SPWPN_PAIN) := by
  have h1 : ∃ s, cast_excruciating_wounds staff_wielder 10 false false threes
        = some (spret.success, s)
      ∧ s.duration DUR_EXCRUCIATING_WOUNDS ≠ 0 ∧ s.equip_weapon = some 0
      ∧ get_weapon_brand (s.inv 0) ≠ SPWPN_PAIN :=
    ⟨_, rfl, by decide, rfl, by decide⟩
  have h2 : ∃ s, cast_excruciating_wounds artefact_wielder 10 false false threes
        = some (spret.success, s)
      ∧ s.duration DUR_EXCRUCIATING_WOUNDS ≠ 0 ∧ s.equip_weapon = some 0
      ∧ get_weapon_brand (s.inv 0) ≠ SPWPN_PAIN :=
    ⟨_, rfl, by decide, rfl, by decide⟩
  obtain ⟨s1, hs1, hd1, hw1, hb1⟩ := h1
  obtain ⟨s2, hs2, hd2, hw2, hb2⟩ := h2
  exact ⟨⟨rfl, rfl, s1,
      Reachable.next _ _ Reachable.start
        (Step.pain staff_wielder 10 false false threes spret.success s1 hs1),
      hd1, hw1, hb1⟩,
    ⟨rfl, rfl, s2,
      Reachable.next _ _ Reachable.start
        (Step.pain artefact_wielder 10 false false threes spret.success s2 hs2),
      hd2, hw2, hb2⟩⟩

/-- C20 (hazard judged on the current brand). A re-cast of kind `K` while the duration of
`K` is nonzero and the wielded weapon carries the tag of `K` shows no prompt and calls no
`MiscastEffect`, whatever it returns and whatever `ORIGINAL_BRAND_KEY` holds, a saved
`SPWPN_DISTORTION` without the `safe_distortion` passive included. -/
theorem recast_no_hazard (K : brand_kind) (you you' : player) (w : Nat) (power : Int)
    (fail yes : Bool) (rnd : Nat → Nat) (r : spret)
    (hw : you.equip_weapon = some w)
    (hd : you.duration K.dur ≠ 0)
    (hb : get_weapon_brand (you.inv w) = K.tag)
    (h : cast K you power fail yes rnd = some (r, you')) :
    you'.prompts = you.prompts ∧ you'.miscasts = you.miscasts := by
  have hsafe : ∀ v, you.equip_weapon = some v →
      ¬ (get_weapon_brand (you.inv v) = SPWPN_DISTORTION ∧ you.safe_distortion = false) := by
    intro v hv hc
    rw [hw] at hv
    cases hv
    rw [hb] at hc
    cases K <;> exact absurd hc.1 (by decide)
  cases K with
  | poison =>
    simp only [cast, Option.some.injEq] at h
    exact poison_no_hazard you you' power fail yes rnd r h hsafe
  | pain =>
    simp only [cast] at h
    exact pain_no_hazard you you' power fail yes rnd r h hsafe

/-- Witness of C20: venom re-cast on `poisoned_distortion`, where the saved brand is
distortion and the passive is missing. -/
theorem recast_no_hazard_witness :
    (poison_brand_weapon poisoned_distortion 10 false false threes).2.prompts
        = poisoned_distortion.prompts
    ∧ (poison_brand_weapon poisoned_distortion 10 false false threes).2.miscasts
        = poisoned_distortion.miscasts :=
  recast_no_hazard brand_kind.poison poisoned_distortion
    (poison_brand_weapon poisoned_distortion 10 false false threes).2 0 10 false false threes
    (poison_brand_weapon poisoned_distortion 10 false false threes).1
    rfl (by decide) rfl rfl

end SplWpnench
